import Mathlib

/-!
Verification development for the AureaVia ride-dispatch backend.

Shallow embedding conventions:
* timestamps (`datetime`) are epoch seconds, modeled as `Int`;
* money / distances (`Decimal`, `float`) are modeled as `Rat`;
* UUIDs are modeled as `Nat` identifiers; externally generated identifiers
  (uuid4-based order ids, search ids) are passed as explicit arguments;
* the relational store is an explicit `DB` record of lists; SQLAlchemy
  object mutation + flush is modeled as functional record update and
  in-place list replacement;
* raised service exceptions are modeled with `Except`.
-/

namespace AureaVia

/-- Ride status enumeration, from `app/models/ride.py` (`RideStatus`). -/
inductive RideStatus where
  | to_assign
  | booked
  | in_progress
  | completed
  | cancelled
  | critical
deriving DecidableEq, Repr

/-- The `.value` string of each `RideStatus` member. -/
def RideStatus.value : RideStatus → String
  | .to_assign => "to_assign"
  | .booked => "booked"
  | .in_progress => "in_progress"
  | .completed => "completed"
  | .cancelled => "cancelled"
  | .critical => "critical"

/-- User roles, from `app/models/user.py` (`UserRole`). -/
inductive UserRole where
  | admin
  | assistant
  | finance
  | driver
deriving DecidableEq, Repr

/-- User account status, from `app/models/user.py` (`UserStatus`). -/
inductive UserStatus where
  | active
  | suspended
  | unavailable
deriving DecidableEq, Repr

/-- `VALID_TRANSITIONS` from `app/services/ride_service.py` lines 19-26. -/
def VALID_TRANSITIONS : RideStatus → List RideStatus
  | .to_assign => [.booked, .cancelled, .critical]
  | .critical => [.booked, .cancelled]
  | .booked => [.in_progress, .cancelled]
  | .in_progress => [.completed, .cancelled]
  | .completed => []
  | .cancelled => []

/-- Decidable form of the transition-table check performed by
`_validate_transition`: the target must be in the allowed set. -/
def valid_transition (current target : RideStatus) : Bool :=
  (VALID_TRANSITIONS current).contains target

/-- The error message raised by `_validate_transition`. -/
def invalid_transition_message (current target : RideStatus) : String :=
  "Invalid status transition: " ++ current.value ++ " -> " ++ target.value

/-- `RideServiceError(message, status_code)` from `ride_service.py`. -/
structure RideServiceError where
  message : String
  status_code : Nat := 400
deriving DecidableEq, Repr

/-- The `rides` row, from `app/models/ride.py` (`Ride`), restricted to the
fields read or written by the operations under verification. -/
structure Ride where
  id : Nat
  external_id : Option String := none
  source_platform : String
  status : RideStatus := .to_assign
  pickup_address : String := ""
  dropoff_address : String := ""
  scheduled_at : Int
  started_at : Option Int := none
  completed_at : Option Int := none
  passenger_name : Option String := none
  passenger_phone : Option String := none
  passenger_count : Nat := 1
  distance_km : Option Rat := none
  duration_min : Option Nat := none
  price : Option Rat := none
  driver_share : Option Rat := none
  notes : Option String := none
  flight_number : Option String := none
  booking_reference : Option String := none
  booking_customer_ref : Option String := none
  booking_state_hash : Option String := none
  driver_id : Option Nat := none
  assigned_by : Option Nat := none
  critical_at : Option Int := none
  critical_resolved_at : Option Int := none
  critical_resolution_type : Option String := none
  created_at : Int := 0
  updated_at : Int := 0
deriving DecidableEq, Repr

/-- The `ride_history` row, from `app/models/ride_history.py`. -/
structure RideHistory where
  ride_id : Nat
  old_status : Option RideStatus
  new_status : RideStatus
  changed_by : Option Nat
  changed_at : Int
  notes : Option String
deriving DecidableEq, Repr

/-- The `notifications` row, from `app/models/notification.py`, restricted
to the fields set by `_create_notification`. -/
structure Notification where
  user_id : Nat
  type : String
  title : String
  body : String
  ride_id : Option Nat
  sent_at : Int
deriving DecidableEq, Repr

/-- The `users` row, from `app/models/user.py`, restricted to the fields
the verified operations read. -/
structure User where
  id : Nat
  role : UserRole
  status : UserStatus := .active
deriving DecidableEq, Repr

/-- The `drivers` row, from `app/models/driver.py`, restricted to vehicle
data and the aggregate statistics updated on ride completion. -/
structure Driver where
  user_id : Nat
  vehicle_make : Option String := none
  vehicle_model : Option String := none
  vehicle_seats : Option Nat := some 4
  vehicle_luggage_capacity : Option Nat := some 2
  vehicle_fuel_type : Option String := none
  total_km : Option Rat := some 0
  total_rides : Option Nat := some 0
  total_earnings : Option Rat := some 0
  updated_at : Int := 0
deriving DecidableEq, Repr

/-- The transactional store touched by this core: `rides`, `ride_history`,
`notifications`, plus the `users` and `drivers` tables they reference. -/
structure DB where
  rides : List Ride := []
  history : List RideHistory := []
  notifications : List Notification := []
  users : List User := []
  drivers : List Driver := []
deriving DecidableEq, Repr

/-- `_create_history` from `ride_service.py` lines 54-68. -/
def create_history (ride : Ride) (old_status : Option RideStatus)
    (new_status : RideStatus) (changed_by : Option Nat) (now : Int)
    (notes : Option String := none) : RideHistory :=
  { ride_id := ride.id
    old_status := old_status
    new_status := new_status
    changed_by := changed_by
    changed_at := now
    notes := notes }

/-- `_create_notification` from `ride_service.py` lines 71-85. -/
def create_notification (user_id : Nat) (notification_type : String)
    (title : String) (body : String) (ride_id : Option Nat) (now : Int) :
    Notification :=
  { user_id := user_id
    type := notification_type
    title := title
    body := body
    ride_id := ride_id
    sent_at := now }

/-- Fetch a ride by primary key (`get_ride` without the 404, which each
operation handles at its call site). -/
def find_ride (db : DB) (ride_id : Nat) : Option Ride :=
  db.rides.find? (fun r => r.id == ride_id)

/-- SQLAlchemy identity-map mutation of a fetched row: every list slot
holding the row with this primary key now holds the updated row. -/
def replace_ride (rides : List Ride) (r : Ride) : List Ride :=
  rides.map (fun x => if x.id == r.id then r else x)

/-- Admin and assistant users, as selected by
`User.role.in_([UserRole.ADMIN, UserRole.ASSISTANT])`. -/
def admin_users (db : DB) : List User :=
  db.users.filter (fun u => u.role == .admin || u.role == .assistant)

/-- Python `x or default` on an optional string (`None` and `""` both fall
back to the default). -/
def str_or (s : Option String) (default : String) : String :=
  match s with
  | some v => if v = "" then default else v
  | none => default

/-- Python truthiness of an optional numeric column (`None` and `0` are
falsy). -/
def rat_truthy : Option Rat → Bool
  | some x => x != 0
  | none => false

/-- `create_ride` from `ride_service.py` lines 182-208: insert the ride and
record the creation history entry (`old_status = None`). -/
def create_ride (db : DB) (ride : Ride) (created_by_id : Option Nat)
    (now : Int) : DB × Ride :=
  let ride' := { ride with created_at := now, updated_at := now }
  let history := create_history ride' none ride'.status created_by_id now
    (some "Ride created")
  ({ db with rides := db.rides ++ [ride'], history := db.history ++ [history] },
   ride')

/-- `accept_ride` from `ride_service.py` lines 295-345: the assigned driver
accepts; transition to BOOKED; notify admins/assistants. -/
def accept_ride (db : DB) (ride_id driver_id : Nat) (now : Int) :
    Except RideServiceError DB :=
  match find_ride db ride_id with
  | none => .error { message := "Ride not found", status_code := 404 }
  | some ride =>
    if ride.driver_id ≠ some driver_id then
      .error { message := "You are not assigned to this ride", status_code := 403 }
    else if ¬ valid_transition ride.status .booked then
      .error { message := invalid_transition_message ride.status .booked }
    else
      let old_status := ride.status
      let ride' := { ride with
        status := RideStatus.booked
        updated_at := now
        critical_resolved_at :=
          if old_status = .critical then some now else ride.critical_resolved_at
        critical_resolution_type :=
          if old_status = .critical then some "accepted"
          else ride.critical_resolution_type }
      let history := create_history ride' (some old_status) .booked
        (some driver_id) now (some "Driver accepted the ride")
      let notifs := (admin_users db).map (fun admin =>
        create_notification admin.id "ride_accepted" "Corsa accettata"
          ("La corsa " ++ ride'.pickup_address ++ " → " ++ ride'.dropoff_address
            ++ " è stata accettata dal driver.")
          (some ride'.id) now)
      .ok { db with
        rides := replace_ride db.rides ride'
        history := db.history ++ [history]
        notifications := db.notifications ++ notifs }

/-- `start_ride` from `ride_service.py` lines 352-382: transition
BOOKED → IN_PROGRESS, stamping `started_at`. -/
def start_ride (db : DB) (ride_id driver_id : Nat) (now : Int) :
    Except RideServiceError DB :=
  match find_ride db ride_id with
  | none => .error { message := "Ride not found", status_code := 404 }
  | some ride =>
    if ride.driver_id ≠ some driver_id then
      .error { message := "You are not assigned to this ride", status_code := 403 }
    else if ¬ valid_transition ride.status .in_progress then
      .error { message := invalid_transition_message ride.status .in_progress }
    else
      let old_status := ride.status
      let ride' := { ride with
        status := RideStatus.in_progress
        started_at := some now
        updated_at := now }
      let history := create_history ride' (some old_status) .in_progress
        (some driver_id) now (some "Driver started the ride")
      .ok { db with
        rides := replace_ride db.rides ride'
        history := db.history ++ [history] }

/-- The driver-statistics update inside `complete_ride`
(`ride_service.py` lines 420-431). -/
def update_driver_stats (d : Driver) (ride : Ride) (now : Int) : Driver :=
  let d1 := { d with total_rides := some (d.total_rides.getD 0 + 1) }
  let d2 :=
    if rat_truthy ride.distance_km then
      { d1 with total_km := some (d1.total_km.getD 0 + ride.distance_km.getD 0) }
    else d1
  let d3 :=
    if rat_truthy ride.driver_share then
      { d2 with
          total_earnings := some (d2.total_earnings.getD 0 + ride.driver_share.getD 0) }
    else d2
  { d3 with updated_at := now }

/-- `complete_ride` from `ride_service.py` lines 389-434: transition
IN_PROGRESS → COMPLETED, stamp `completed_at`, update driver statistics. -/
def complete_ride (db : DB) (ride_id driver_id : Nat) (now : Int) :
    Except RideServiceError DB :=
  match find_ride db ride_id with
  | none => .error { message := "Ride not found", status_code := 404 }
  | some ride =>
    if ride.driver_id ≠ some driver_id then
      .error { message := "You are not assigned to this ride", status_code := 403 }
    else if ¬ valid_transition ride.status .completed then
      .error { message := invalid_transition_message ride.status .completed }
    else
      let old_status := ride.status
      let ride' := { ride with
        status := RideStatus.completed
        completed_at := some now
        updated_at := now }
      let history := create_history ride' (some old_status) .completed
        (some driver_id) now (some "Driver completed the ride")
      let drivers' := db.drivers.map (fun d =>
        if d.user_id == driver_id then update_driver_stats d ride' now else d)
      .ok { db with
        rides := replace_ride db.rides ride'
        history := db.history ++ [history]
        drivers := drivers' }

/-- `cancel_ride` from `ride_service.py` lines 441-477: cancel from any
active status; notify the assigned driver if any. -/
def cancel_ride (db : DB) (ride_id : Nat) (cancelled_by_id : Nat)
    (notes : Option String) (now : Int) : Except RideServiceError DB :=
  match find_ride db ride_id with
  | none => .error { message := "Ride not found", status_code := 404 }
  | some ride =>
    if ¬ valid_transition ride.status .cancelled then
      .error { message := invalid_transition_message ride.status .cancelled }
    else
      let old_status := ride.status
      let ride' := { ride with status := RideStatus.cancelled, updated_at := now }
      let history := create_history ride' (some old_status) .cancelled
        (some cancelled_by_id) now (some (str_or notes "Ride cancelled"))
      let notifs :=
        match ride'.driver_id with
        | some did =>
          [create_notification did "ride_cancelled" "Corsa cancellata"
            ("La corsa " ++ ride'.pickup_address ++ " → " ++ ride'.dropoff_address
              ++ " è stata cancellata.")
            (some ride'.id) now]
        | none => []
      .ok { db with
        rides := replace_ride db.rides ride'
        history := db.history ++ [history]
        notifications := db.notifications ++ notifs }

/-- Selection predicate of the critical sweep (`check_critical_rides`,
`ride_service.py` lines 490-498): still TO_ASSIGN, scheduled at most 3h
from now, and strictly in the future. -/
def is_critical_candidate (now : Int) (r : Ride) : Bool :=
  r.status == .to_assign && r.scheduled_at ≤ now + 10800 && now < r.scheduled_at

/-- The per-ride mutation of the critical sweep. -/
def escalate_ride (now : Int) (r : Ride) : Ride :=
  { r with status := RideStatus.critical, critical_at := some now, updated_at := now }

/-- The fixed auto-escalation history note. -/
def critical_history_note : String :=
  "Auto-marked as critical: < 3h to scheduled time"

/-- Notification body of the critical sweep (the `%H:%M` strftime of the
scheduled time is rendered from the epoch-second model). -/
def critical_body (r : Ride) : String :=
  "La corsa " ++ r.pickup_address ++ " → " ++ r.dropoff_address ++
    " (prevista alle " ++ toString r.scheduled_at ++ ") non è ancora assegnata."

/-- `check_critical_rides` from `ride_service.py` lines 484-546: escalate
every matching ride, write a history row per escalation, and notify every
admin/assistant per escalated ride. Returns the new store and the list of
escalated rides. -/
def check_critical_rides (db : DB) (now : Int) : DB × List Ride :=
  let selected := db.rides.filter (is_critical_candidate now)
  let admins := admin_users db
  let rides' := db.rides.map (fun r =>
    if is_critical_candidate now r then escalate_ride now r else r)
  let new_history := selected.map (fun r =>
    create_history r (some r.status) .critical none now
      (some critical_history_note))
  let new_notifs := selected.flatMap (fun r =>
    admins.map (fun admin =>
      create_notification admin.id "ride_critical" "Corsa critica"
        (critical_body r) (some r.id) now))
  ({ db with
      rides := rides'
      history := db.history ++ new_history
      notifications := db.notifications ++ new_notifs },
   selected.map (escalate_ride now))

/-! ### Marketplace-A ("ETG") supplier adapter, `app/services/etg_service.py` -/

/-- ETG transfer categories, from `app/schemas/etg.py` (`TransferCategory`). -/
inductive TransferCategory where
  | economy
  | economy_mpv
  | economy_van
  | standard
  | standard_mpv
  | standard_van
  | business
  | business_mpv
  | business_van
  | first
  | first_mpv
  | first_van
  | luxury
  | luxury_mpv
  | luxury_van
  | minibus
  | minibus_large
  | bus
  | electro_economy
  | electro_standard
  | electro_business
  | electro_first
  | electro_luxury
  | electro_minibus
  | electro_bus
  | micro
deriving DecidableEq, Repr

/-- The `.value` string of each `TransferCategory` member. -/
def TransferCategory.value : TransferCategory → String
  | .economy => "economy"
  | .economy_mpv => "economy_mpv"
  | .economy_van => "economy_van"
  | .standard => "standard"
  | .standard_mpv => "standard_mpv"
  | .standard_van => "standard_van"
  | .business => "business"
  | .business_mpv => "business_mpv"
  | .business_van => "business_van"
  | .first => "first"
  | .first_mpv => "first_mpv"
  | .first_van => "first_van"
  | .luxury => "luxury"
  | .luxury_mpv => "luxury_mpv"
  | .luxury_van => "luxury_van"
  | .minibus => "minibus"
  | .minibus_large => "minibus_large"
  | .bus => "bus"
  | .electro_economy => "electro_economy"
  | .electro_standard => "electro_standard"
  | .electro_business => "electro_business"
  | .electro_first => "electro_first"
  | .electro_luxury => "electro_luxury"
  | .electro_minibus => "electro_minibus"
  | .electro_bus => "electro_bus"
  | .micro => "micro"

/-- `ETGServiceError(message, status_code)` from `etg_service.py`. -/
structure ETGServiceError where
  message : String
  status_code : Nat := 400
deriving DecidableEq, Repr

/-- `CATEGORY_PRICING` from `etg_service.py` lines 50-77: base price per km
for each category. -/
def CATEGORY_PRICING : TransferCategory → Rat
  | .micro => 8/10
  | .economy => 1
  | .economy_mpv => 12/10
  | .economy_van => 13/10
  | .standard => 13/10
  | .standard_mpv => 15/10
  | .standard_van => 16/10
  | .business => 18/10
  | .business_mpv => 2
  | .business_van => 21/10
  | .first => 25/10
  | .first_mpv => 27/10
  | .first_van => 28/10
  | .luxury => 35/10
  | .luxury_mpv => 37/10
  | .luxury_van => 38/10
  | .minibus => 2
  | .minibus_large => 25/10
  | .bus => 3
  | .electro_economy => 11/10
  | .electro_standard => 14/10
  | .electro_business => 19/10
  | .electro_first => 26/10
  | .electro_luxury => 36/10
  | .electro_minibus => 21/10
  | .electro_bus => 31/10

/-- `MIN_FARE` from `etg_service.py` lines 79-81. -/
def MIN_FARE (cat : TransferCategory) : Rat :=
  max 15 (CATEGORY_PRICING cat * 10)

/-- `CHILD_SEAT_PRICE` from `etg_service.py` line 83. -/
def CHILD_SEAT_PRICE : Rat := 5

/-- Python float `round(x, 2)`, modeled over `Rat` by rounding `x * 100` to
the nearest integer (every value this development evaluates it on is exact
at two decimals, so no tie-breaking behavior is exercised). -/
def round2 (x : Rat) : Rat := (round (x * 100) : Int) / 100

/-- `_calculate_price` from `etg_service.py` lines 193-198. -/
def calculate_price (category : TransferCategory) (distance_km : Rat)
    (child_seat_count : Nat) : Rat :=
  let base := CATEGORY_PRICING category * distance_km
  let minimum := MIN_FARE category
  let price := max base minimum
  round2 (price + child_seat_count * CHILD_SEAT_PRICE)

/-- Contiguous-sublist test over character lists (structural recursion so
that proofs can evaluate it). -/
def list_is_infix {α : Type} [BEq α] (sub : List α) : List α → Bool
  | [] => sub.isEmpty
  | l@(_ :: t) => sub.isPrefixOf l || list_is_infix sub t

/-- Python substring test `sub in s`. -/
def str_contains (s sub : String) : Bool :=
  list_is_infix sub.data s.data

/-- Python `s.lower()`, character by character. -/
def str_lower (s : String) : String :=
  String.mk (s.data.map Char.toLower)

/-- Python `opt or default` on an optional natural (`None` and `0` both
fall back to the default). -/
def nat_or (n : Option Nat) (default : Nat) : Nat :=
  match n with
  | some v => if v = 0 then default else v
  | none => default

/-- Python truthiness of an optional natural column. -/
def nat_truthy : Option Nat → Bool
  | some v => v != 0
  | none => false

/-- `_classify_vehicle` from `etg_service.py` lines 86-147: the categories
a driver's vehicle qualifies for, by seat count, make/model keywords and
fuel type. -/
def classify_vehicle (driver : Driver) : List TransferCategory :=
  let seats := nat_or driver.vehicle_seats 4
  let make := str_lower (driver.vehicle_make.getD "")
  let model := str_lower (driver.vehicle_model.getD "")
  let fuel := str_lower (driver.vehicle_fuel_type.getD "")
  let is_electric := fuel ∈ ["electric", "ev", "bev", "elettrico"]
  let is_luxury := ["mercedes", "bmw", "audi", "lexus", "jaguar", "porsche",
    "maserati", "tesla"].any (fun b => str_contains make b)
  let is_premium := is_luxury ||
    ["volvo", "alfa romeo", "alfa", "ds"].any (fun b => str_contains make b)
  let is_van := ["van", "vito", "sprinter", "transporter", "caravelle",
    "v-class", "classe v"].any (fun v => str_contains model v)
  let is_mpv := seats ≥ 6 && !is_van
  let is_minibus := seats ≥ 8
  if is_minibus then
    (if is_electric then [.electro_minibus] else []) ++
    (if seats ≥ 16 then [.minibus_large, .bus] else []) ++
    [.minibus]
  else if is_van then
    (if is_electric then [.electro_business] else []) ++
    (if is_luxury then [.luxury_van, .first_van] else []) ++
    (if is_premium then [.business_van] else []) ++
    [.standard_van, .economy_van]
  else if is_mpv then
    (if is_electric then [.electro_business] else []) ++
    (if is_luxury then [.luxury_mpv, .first_mpv] else []) ++
    (if is_premium then [.business_mpv] else []) ++
    [.standard_mpv, .economy_mpv]
  else
    (if is_electric then
      (if is_luxury then [.electro_luxury, .electro_first] else []) ++
      (if is_premium then [.electro_business] else []) ++
      [.electro_standard, .electro_economy]
    else []) ++
    (if is_luxury then [.luxury, .first] else []) ++
    (if is_premium then [.business] else []) ++
    [.standard, .economy] ++
    (if seats ≤ 3 then [.micro] else [])

/-- `_estimate_duration_min` from `etg_service.py` lines 189-190 (`int`
truncation coincides with the floor on the non-negative distances used). -/
def estimate_duration_min (distance_km : Rat) : Int :=
  max 15 ⌊distance_km / 40 * 60⌋

/-- An ETG `/search` request (`app/schemas/etg.py`, `SearchRequest`),
restricted to the fields the offer computation reads. The origin and
destination points only feed the floating-point Haversine distance
estimate, which is passed to `search_offers` as an explicit argument. -/
structure SearchRequest where
  start_date_time : Int
  passengers : Nat := 1
  children_seat_0 : Nat := 0
  children_seat_1 : Nat := 0
  children_seat_2 : Nat := 0
  children_seat_3 : Nat := 0
deriving DecidableEq, Repr

/-- One offer in an ETG search response (`app/schemas/etg.py`,
`SearchOffer`), restricted to the computed fields. -/
structure SearchOffer where
  id : String
  transfer_category : TransferCategory
  car_model : String
  seats : Nat
  luggage_places : Nat
  price : Rat
  free_cancel_until : Int
  estimated_duration_minutes : Int
  distance : Rat
deriving DecidableEq, Repr

/-- The per-offer record cached for later booking (`offer_data` dict in
`search_offers`, `etg_service.py` lines 275-288). -/
structure OfferData where
  category : TransferCategory
  car_model : String
  price : Rat
  distance : Rat
  duration : Int
  free_cancel_until : Int
  start_date_time : Int
  passengers : Nat
  seats : Nat
  luggage_places : Nat
deriving DecidableEq, Repr

/-- The in-memory offer cache `_offer_cache` (`etg_service.py` line 215):
an insertion-ordered map from search id to an insertion-ordered map from
offer id to cached offer data. -/
abbrev OfferCache := List (String × List (String × OfferData))

/-- `_generate_offer_id` (`etg_service.py` lines 201-203) deterministically
derives the offer id from the search id and category; the sha256-prefix
encoding is modeled by the underlying string it hashes. -/
def generate_offer_id (search_id : String) (category : TransferCategory) :
    String :=
  search_id ++ ":" ++ category.value

/-- The `category_vehicles` grouping in `search_offers` (`etg_service.py`
lines 240-244): a dict preserving first-insertion order of categories,
appending each qualifying driver to every category its vehicle matches. -/
def add_to_group (groups : List (TransferCategory × List Driver))
    (cat : TransferCategory) (d : Driver) :
    List (TransferCategory × List Driver) :=
  if groups.any (fun p => p.1 == cat) then
    groups.map (fun p => if p.1 == cat then (p.1, p.2 ++ [d]) else p)
  else
    groups ++ [(cat, [d])]

/-- The driver-qualification guard of the grouping loop
(`if driver.vehicle_seats and driver.vehicle_seats >= request.passengers`):
seat count set, non-zero, and at least the requested passenger count. -/
def qualifies (passengers : Nat) (d : Driver) : Bool :=
  nat_truthy d.vehicle_seats && d.vehicle_seats.getD 0 ≥ passengers

/-- Build the category → qualifying-drivers grouping from the fleet
(`etg_service.py` lines 240-244). -/
def category_vehicles (drivers : List Driver) (passengers : Nat) :
    List (TransferCategory × List Driver) :=
  drivers.foldl (fun groups d =>
    if qualifies passengers d then
      (classify_vehicle d).foldl (fun g c => add_to_group g c d) groups
    else groups) []

/-- The `car_model` string of an offer
(`f"{make} {model}".strip() or "Standard Vehicle"`). -/
def offer_car_model (best : Driver) : String :=
  let s := ((best.vehicle_make.getD "") ++ " " ++ (best.vehicle_model.getD "")).trim
  if s = "" then "Standard Vehicle" else s

/-- Build one search offer for a category group (`etg_service.py`
lines 252-271), from the first driver in the group. -/
def make_offer (search_id : String) (request : SearchRequest)
    (distance_km : Rat) (duration_min : Int) (child_seats_total : Nat)
    (cat : TransferCategory) (best : Driver) : SearchOffer :=
  { id := generate_offer_id search_id cat
    transfer_category := cat
    car_model := offer_car_model best
    seats := nat_or best.vehicle_seats 4
    luggage_places := nat_or best.vehicle_luggage_capacity 2
    price := calculate_price cat distance_km child_seats_total
    free_cancel_until := request.start_date_time - 86400
    estimated_duration_minutes := duration_min
    distance := distance_km }

/-- The cached `offer_data` entry corresponding to an offer. -/
def make_offer_data (request : SearchRequest) (distance_km : Rat)
    (duration_min : Int) (offer : SearchOffer) : OfferData :=
  { category := offer.transfer_category
    car_model := offer.car_model
    price := offer.price
    distance := distance_km
    duration := duration_min
    free_cancel_until := offer.free_cancel_until
    start_date_time := request.start_date_time
    passengers := request.passengers
    seats := offer.seats
    luggage_places := offer.luggage_places }

/-- `search_offers` from `etg_service.py` lines 220-299, with the
Haversine-based distance estimate supplied as `distance_km` and the
uuid-generated search id supplied as `search_id`. Returns the updated
offer cache together with the offers, which are sorted ascending by the
category's base per-km rate (a stable sort, as Python's `sorted`). -/
def search_offers (cache : OfferCache) (drivers : List Driver)
    (request : SearchRequest) (search_id : String) (distance_km : Rat) :
    OfferCache × List SearchOffer :=
  let duration_min := estimate_duration_min distance_km
  let child_seats_total := request.children_seat_0 + request.children_seat_1 +
    request.children_seat_2 + request.children_seat_3
  let groups := category_vehicles drivers request.passengers
  let sorted_groups := groups.mergeSort (fun a b =>
    decide (CATEGORY_PRICING a.1 ≤ CATEGORY_PRICING b.1))
  let offers := sorted_groups.filterMap (fun p =>
    p.2.head?.map (make_offer search_id request distance_km duration_min
      child_seats_total p.1))
  let offer_data := offers.map (fun o =>
    (o.id, make_offer_data request distance_km duration_min o))
  let cache1 := cache ++ [(search_id, offer_data)]
  let cache2 := if cache1.length > 1000 then cache1.drop 1 else cache1
  (cache2, offers)

/-- A point in an ETG request (`app/schemas/etg.py`, `PointRequest`). -/
structure PointRequest where
  type : String := "address"
  value : Option String := none
  iata : Option String := none
  coordinates : Option String := none
deriving DecidableEq, Repr

/-- Python truthiness of an optional string. -/
def opt_str_truthy : Option String → Bool
  | some s => s != ""
  | none => false

/-- `_resolve_point_value` from `etg_service.py` lines 150-156. -/
def resolve_point_value (p : PointRequest) : String :=
  if opt_str_truthy p.iata then p.iata.getD ""
  else if opt_str_truthy p.coordinates then p.coordinates.getD ""
  else p.value.getD ""

/-- Python `s or None` on an optional string (`""` becomes `None`). -/
def str_or_none (s : Option String) : Option String :=
  match s with
  | some v => if v = "" then none else some v
  | none => none

/-- `MainPassenger` from `app/schemas/etg.py`. -/
structure MainPassenger where
  first_name : String
  last_name : String
  phone : String
  email : String := ""
deriving DecidableEq, Repr

/-- An ETG `/book` request (`app/schemas/etg.py`, `BookRequest`),
restricted to the consumed fields. -/
structure BookRequest where
  offer_id : String
  start_point : PointRequest
  end_point : PointRequest
  passengers : Nat := 1
  luggage_places : Nat := 0
  main_passenger : MainPassenger
  flight_number : Option String := none
  comment : Option String := none
deriving DecidableEq, Repr

/-- The offer-cache scan at the top of `book_transfer` (`etg_service.py`
lines 307-313): first search, in insertion order, whose offers contain the
requested offer id. -/
def find_offer (cache : OfferCache) (offer_id : String) : Option OfferData :=
  cache.findSome? (fun s => (s.2.find? (fun o => o.1 == offer_id)).map (·.2))

/-- An ETG `/book` response (`app/schemas/etg.py`, `BookResponse`),
restricted to the computed fields. -/
structure BookResponse where
  order_id : String
  start_time : Int
  distance : Rat
  estimated_duration_minutes : Int
  passengers : Nat
  luggage_places : Nat
  flight_number : Option String
  comment : Option String
  price : Rat
deriving DecidableEq, Repr

/-- `book_transfer` from `etg_service.py` lines 304-398, with the
uuid-generated ride id and order id supplied as arguments. The offer cache
is threaded through explicitly; the source never mutates it during
booking. No history row is written. -/
def book_transfer (cache : OfferCache) (db : DB) (request : BookRequest)
    (ride_uuid : Nat) (order_id : String) (now : Int) :
    Except ETGServiceError (OfferCache × DB × BookResponse) :=
  match find_offer cache request.offer_id with
  | none =>
    .error { message := "Invalid or expired offer_id. Please search again."
             status_code := 400 }
  | some offer_data =>
    let pickup_addr := str_or (some (resolve_point_value request.start_point)) "N/A"
    let dropoff_addr := str_or (some (resolve_point_value request.end_point)) "N/A"
    let ride : Ride :=
      { id := ride_uuid
        external_id := some order_id
        source_platform := "etg"
        status := RideStatus.to_assign
        pickup_address := pickup_addr
        dropoff_address := dropoff_addr
        scheduled_at := offer_data.start_date_time
        passenger_name := some (request.main_passenger.first_name ++ " " ++
          request.main_passenger.last_name)
        passenger_phone := some request.main_passenger.phone
        passenger_count := request.passengers
        distance_km := some offer_data.distance
        duration_min := none
        price := some offer_data.price
        notes := str_or_none request.comment
        flight_number := str_or_none request.flight_number
        booking_reference := some order_id
        created_at := now
        updated_at := now }
    .ok (cache,
      { db with rides := db.rides ++ [ride] },
      { order_id := order_id
        start_time := offer_data.start_date_time
        distance := offer_data.distance
        estimated_duration_minutes := offer_data.duration
        passengers := request.passengers
        luggage_places := request.luggage_places
        flight_number := request.flight_number
        comment := request.comment
        price := offer_data.price })

/-- Lookup used by `/status` and `/cancel`: the ride whose `external_id`
equals the order id. -/
def find_ride_by_external_id (db : DB) (order_id : String) : Option Ride :=
  db.rides.find? (fun r => r.external_id == some order_id)

/-- An ETG `/cancel` response (`CancelResponse` with its `CancelPenalty`),
from `app/schemas/etg.py`. -/
structure CancelResponse where
  penalty_amount : Rat
  currency : String := "EUR"
deriving DecidableEq, Repr

/-- `cancel_order` from `etg_service.py` lines 457-486: refuse when the
ride is already completed or cancelled; charge the full price as penalty
when cancelling less than 24 hours before the scheduled time; set the ride
cancelled. No history row is written. -/
def cancel_order (db : DB) (order_id : String) (now : Int) :
    Except ETGServiceError (DB × CancelResponse) :=
  match find_ride_by_external_id db order_id with
  | none =>
    .error { message := "Order " ++ order_id ++ " not found"
             status_code := 404 }
  | some ride =>
    if ride.status = .completed ∨ ride.status = .cancelled then
      .error { message := "Order " ++ order_id ++
                 " cannot be cancelled (status: " ++ ride.status.value ++ ")"
               status_code := 400 }
    else
      let penalty_amount : Rat :=
        if ride.scheduled_at - now < 86400 then
          match ride.price with
          | some p => if p = 0 then 0 else p
          | none => 0
        else 0
      let ride' := { ride with status := RideStatus.cancelled, updated_at := now }
      .ok ({ db with rides := replace_ride db.rides ride' },
        { penalty_amount := penalty_amount })

/-! ### Webhook endpoints (`app/api/webhook.py`) and Marketplace-B importer
(`app/services/booking_service.py`) -/

/-- An ISO-8601 datetime string, modeled by the outcome of running
`datetime.fromisoformat` on it (after the `Z` → `+00:00` rewrite): either
the parsed epoch-second timestamp or a `ValueError`. -/
inductive IsoDatetime where
  | valid (t : Int)
  | malformed
deriving DecidableEq, Repr

/-- `datetime.fromisoformat` on the modeled string. -/
def parse_iso : IsoDatetime → Option Int
  | .valid t => some t
  | .malformed => none

/-- A FastAPI `HTTPException`. -/
structure HTTPError where
  status_code : Nat
  detail : String
deriving DecidableEq, Repr

/-- The generic direct-booking payload (`app/schemas/ride.py`,
`RideWebhook`), restricted to the fields the endpoint copies into the
ride. -/
structure RideWebhook where
  external_id : Option String := none
  source_platform : String
  pickup_address : String
  dropoff_address : String
  scheduled_at : Int
  passenger_name : Option String := none
  passenger_phone : Option String := none
  passenger_count : Nat := 1
  distance_km : Option Rat := none
  duration_min : Option Nat := none
  price : Option Rat := none
  notes : Option String := none
deriving DecidableEq, Repr

/-- `receive_booking` (`POST /booking`) from `app/api/webhook.py`
lines 76-124: reject a duplicate `(external_id, source_platform)` pair
with 409 when `external_id` is truthy, else create the ride (with the
uuid generated by the model default supplied as `ride_uuid`). No history
row is written by this endpoint. On success the HTTP status is 201. -/
def receive_booking (db : DB) (payload : RideWebhook) (ride_uuid : Nat)
    (now : Int) : Except HTTPError (DB × Ride) :=
  if opt_str_truthy payload.external_id &&
      db.rides.any (fun r => r.external_id == payload.external_id &&
        r.source_platform == payload.source_platform) then
    .error { status_code := 409
             detail := "Ride with external_id '" ++ payload.external_id.getD ""
               ++ "' from '" ++ payload.source_platform ++ "' already exists" }
  else
    let ride : Ride :=
      { id := ride_uuid
        external_id := payload.external_id
        source_platform := payload.source_platform
        status := RideStatus.to_assign
        pickup_address := payload.pickup_address
        dropoff_address := payload.dropoff_address
        scheduled_at := payload.scheduled_at
        passenger_name := payload.passenger_name
        passenger_phone := payload.passenger_phone
        passenger_count := payload.passenger_count
        distance_km := payload.distance_km
        duration_min := payload.duration_min
        price := payload.price
        notes := payload.notes
        created_at := now
        updated_at := now }
    .ok ({ db with rides := db.rides ++ [ride] }, ride)

/-- `LeadPassenger` from `app/schemas/booking.py`. -/
structure LeadPassenger where
  firstName : String
  lastName : String
  phoneNumber : Option String := none
deriving DecidableEq, Repr

/-- `BookingWebhookPayload` from `app/schemas/booking.py` (new-booking
webhook); it carries no pickup time field. -/
structure BookingWebhookPayload where
  bookingReference : String
  customerReference : String
  leadPassenger : LeadPassenger
  flightNumber : Option String := none
  comment : Option String := none
deriving DecidableEq, Repr

/-- The duplicate test used by the Booking.com webhooks: a ride with this
`booking_reference` and `source_platform = "booking.com"` exists. -/
def has_booking_ref (db : DB) (ref : String) : Bool :=
  db.rides.any (fun r => r.booking_reference == some ref &&
    r.source_platform == "booking.com")

/-- `booking_new` (`POST /booking/new`) from `app/api/webhook.py`
lines 158-235: a duplicate `bookingReference` is a silent no-op; on first
receipt, create the ride (placeholder addresses, `scheduled_at = now +
24h`) and its creation history row. Always responds 204. -/
def booking_new (db : DB) (payload : BookingWebhookPayload)
    (ride_uuid : Nat) (now : Int) : DB × Nat :=
  if has_booking_ref db payload.bookingReference then
    (db, 204)
  else
    let ride : Ride :=
      { id := ride_uuid
        external_id := some payload.bookingReference
        source_platform := "booking.com"
        status := RideStatus.to_assign
        pickup_address := "Da definire"
        dropoff_address := "Da definire"
        scheduled_at := now + 86400
        passenger_name := some (payload.leadPassenger.firstName ++ " " ++
          payload.leadPassenger.lastName)
        passenger_phone := payload.leadPassenger.phoneNumber
        passenger_count := 1
        notes := payload.comment
        flight_number := payload.flightNumber
        booking_reference := some payload.bookingReference
        booking_customer_ref := some payload.customerReference
        created_at := now
        updated_at := now }
    let history : RideHistory :=
      { ride_id := ride_uuid
        old_status := none
        new_status := RideStatus.to_assign
        changed_by := none
        changed_at := now
        notes := some ("Booking received from Booking.com (ref: " ++
          payload.bookingReference ++ ")") }
    ({ db with rides := db.rides ++ [ride], history := db.history ++ [history] },
     204)

/-- `BookingUpdatePayload` from `app/schemas/booking.py`. -/
structure BookingUpdatePayload where
  leadPassenger : Option LeadPassenger := none
  comment : Option String := none
  flightNumber : Option String := none
  pickupDateTime : Option IsoDatetime := none
  action : String
  cancellationReason : Option String := none
deriving DecidableEq, Repr

/-- The amendable-field patching of the AMENDMENT branch of
`booking_update` (`app/api/webhook.py` lines 283-308). -/
def apply_amendment (ride : Ride) (payload : BookingUpdatePayload)
    (now : Int) : Ride :=
  let r1 :=
    match payload.leadPassenger with
    | some lp =>
      let new_name := some (lp.firstName ++ " " ++ lp.lastName)
      let r := { ride with passenger_name := new_name }
      if opt_str_truthy lp.phoneNumber then
        { r with passenger_phone := lp.phoneNumber }
      else r
    | none => ride
  let r2 := if opt_str_truthy payload.flightNumber then
    { r1 with flight_number := payload.flightNumber } else r1
  let r3 := if opt_str_truthy payload.comment then
    { r2 with notes := payload.comment } else r2
  let r4 :=
    match payload.pickupDateTime with
    | some s =>
      match parse_iso s with
      | some t => { r3 with scheduled_at := t }
      | none => r3
    | none => r3
  { r4 with updated_at := now }

/-- `booking_update` (`PATCH /booking/{booking_reference}`) from
`app/api/webhook.py` lines 242-322: unknown reference is a 204 no-op; a
CANCELLATION sets the ride cancelled (with no transition-table check) and
writes a history row; an AMENDMENT patches fields and writes a
same-status history row. Always responds 204. -/
def booking_update (db : DB) (booking_reference : String)
    (payload : BookingUpdatePayload) (now : Int) : DB × Nat :=
  match db.rides.find? (fun r => r.booking_reference == some booking_reference &&
      r.source_platform == "booking.com") with
  | none => (db, 204)
  | some ride =>
    if payload.action = "CANCELLATION" then
      let old_status := ride.status
      let ride' := { ride with status := RideStatus.cancelled, updated_at := now }
      let history : RideHistory :=
        { ride_id := ride.id
          old_status := some old_status
          new_status := RideStatus.cancelled
          changed_by := none
          changed_at := now
          notes := some ("Cancelled by Booking.com: " ++
            str_or payload.cancellationReason "No reason") }
      ({ db with rides := replace_ride db.rides ride'
                 history := db.history ++ [history] }, 204)
    else if payload.action = "AMENDMENT" then
      let ride' := apply_amendment ride payload now
      let history : RideHistory :=
        { ride_id := ride.id
          old_status := some ride'.status
          new_status := ride'.status
          changed_by := none
          changed_at := now
          notes := some "Booking amended by Booking.com" }
      ({ db with rides := replace_ride db.rides ride'
                 history := db.history ++ [history] }, 204)
    else
      (db, 204)

/-- `BASE_PRICE_PER_KM` from `app/services/booking_service.py` line 28. -/
def BASE_PRICE_PER_KM : Rat := 18/10

/-- `MIN_PRICE` from `app/services/booking_service.py` line 29. -/
def MIN_PRICE : Rat := 25

/-- A location in a Booking.com payload (`SearchLocation` of
`app/schemas/booking.py`), restricted to the address fields the importer
reads. -/
structure SearchLocation where
  name : Option String := none
  city : Option String := none
deriving DecidableEq, Repr

/-- A booking as returned by the Booking.com list endpoint
(`BookingAPIBooking` of `app/schemas/booking.py`). -/
structure BookingAPIBooking where
  bookingReference : String
  customerReference : String
  stateHash : Option String := none
  origin : Option SearchLocation := none
  destination : Option SearchLocation := none
  pickupDateTime : Option IsoDatetime := none
  leadPassenger : Option LeadPassenger := none
  flightNumber : Option String := none
  comment : Option String := none
  drivingDistanceInKm : Option Rat := none
deriving DecidableEq, Repr

/-- The address construction in `_booking_to_ride`
(`", ".join(truthy parts) or fallback`). -/
def location_address (loc : Option SearchLocation) (fallback : String) :
    String :=
  match loc with
  | some l =>
    let parts := [l.name, l.city].filterMap (fun p =>
      if opt_str_truthy p then p else none)
    str_or (some (String.intercalate ", " parts)) fallback
  | none => fallback

/-- `_booking_to_ride` from `app/services/booking_service.py`
lines 260-333, with the uuid ride id supplied as an argument: pickup time
falls back to `now + 24h` when missing or unparsable; the price estimate
is `max(round(distance * 1.80, 2), 25)` when a distance is present. -/
def booking_to_ride (booking : BookingAPIBooking) (ride_uuid : Nat)
    (now : Int) : Ride :=
  let scheduled_at :=
    match booking.pickupDateTime with
    | some s =>
      match parse_iso s with
      | some t => t
      | none => now + 86400
    | none => now + 86400
  let passenger_name :=
    booking.leadPassenger.map (fun lp => lp.firstName ++ " " ++ lp.lastName)
  let passenger_phone :=
    match booking.leadPassenger with
    | some lp => lp.phoneNumber
    | none => none
  let price : Option Rat :=
    if rat_truthy booking.drivingDistanceInKm then
      some (max (round2 (booking.drivingDistanceInKm.getD 0 * BASE_PRICE_PER_KM))
        MIN_PRICE)
    else none
  { id := ride_uuid
    external_id := some booking.bookingReference
    source_platform := "booking.com"
    status := RideStatus.to_assign
    pickup_address := location_address booking.origin "Pickup location"
    dropoff_address := location_address booking.destination "Dropoff location"
    scheduled_at := scheduled_at
    passenger_name := passenger_name
    passenger_phone := passenger_phone
    passenger_count := 1
    distance_km := booking.drivingDistanceInKm
    price := price
    notes := booking.comment
    flight_number := booking.flightNumber
    booking_reference := some booking.bookingReference
    booking_customer_ref := some booking.customerReference
    booking_state_hash := booking.stateHash
    created_at := now
    updated_at := now }

/-! ### Shared helper lemmas -/

theorem find?_replace_ride (rides : List Ride) (p : Ride → Bool)
    (ride ride' : Ride) (hfind : rides.find? p = some ride)
    (hid : ride'.id = ride.id) (hp : p ride' = true) :
    (replace_ride rides ride').find? p = some ride' := by
  induction rides with
  | nil => simp at hfind
  | cons a t ih =>
    rw [replace_ride, List.map_cons]
    by_cases ha : (a.id == ride'.id) = true
    · rw [if_pos ha]
      simp [List.find?_cons, hp]
    · rw [if_neg ha]
      by_cases hpa : p a = true
      · exfalso
        rw [List.find?_cons, hpa] at hfind
        have : a = ride := by injection hfind
        subst this
        rw [hid] at ha
        simp at ha
      · have hpa' : p a = false := Bool.eq_false_iff.mpr hpa
        rw [List.find?_cons, hpa'] at hfind
        rw [List.find?_cons, hpa']
        have := ih hfind
        rw [replace_ride] at this
        exact this

theorem replace_ride_status_edge (rides : List Ride) (ride ride' : Ride)
    (hnodup : (rides.map Ride.id).Nodup) (hmem : ride ∈ rides)
    (hid : ride'.id = ride.id)
    (hedge : ride'.status = ride.status ∨
      valid_transition ride.status ride'.status = true) :
    ∀ r ∈ rides, ∀ r2 ∈ replace_ride rides ride', r2.id = r.id →
      r2.status = r.status ∨ valid_transition r.status r2.status = true := by
  intro r hr r2 hr2 hid2
  rw [replace_ride] at hr2
  rcases List.mem_map.mp hr2 with ⟨x, hx, hfx⟩
  by_cases hxa : (x.id == ride'.id) = true
  · rw [if_pos hxa] at hfx
    subst hfx
    have hrid : r.id = ride.id := by rw [← hid2, hid]
    have : r = ride := List.inj_on_of_nodup_map hnodup hr hmem hrid
    subst this
    exact hedge
  · rw [if_neg hxa] at hfx
    subst hfx
    have : x = r := List.inj_on_of_nodup_map hnodup hx hr hid2
    subst this
    exact Or.inl rfl

theorem sum_map_const_nat {α : Type} (l : List α) (c : Nat) :
    (l.map (fun _ => c)).sum = l.length * c := by
  induction l with
  | nil => simp
  | cons a t ih => simp [ih, Nat.succ_mul, Nat.add_comm]

/-! ### C1 -/

/-- C1 is refuted at a concrete store: the Marketplace-B cancellation
webhook applied to a ride that is already `completed` sets it to
`cancelled` — a transition absent from the table (`completed` is terminal)
— instead of failing with an invalid-state error. -/
theorem C1_counterexample :
    ((booking_update
        { rides := [{ id := 1,
                      source_platform := "booking.com",
                      status := RideStatus.completed,
                      scheduled_at := 5000,
                      booking_reference := some "BR1" }] }
        "BR1" { action := "CANCELLATION" } 100).1.rides.map Ride.status
      = [RideStatus.cancelled]) ∧
    valid_transition RideStatus.completed RideStatus.cancelled = false :=
  ⟨rfl, rfl⟩

/-- C1 (amended): status changes performed through the ride lifecycle
engine (`accept_ride`, `start_ride`, `complete_ride`, `cancel_ride`), the
critical sweep, and the Marketplace-A cancel move a ride's status only
along the edges of the transition table, and an illegal requested
transition (or a missing ride / wrong driver) fails with the corresponding
error, producing no new store state — so ride and history are unchanged.
(The Marketplace-B cancellation webhook is the exception established by
the counterexample.) -/
theorem C1_engine_transitions_follow_table :
    (∀ (db : DB) (rid did : Nat) (now : Int),
      (find_ride db rid = none →
        accept_ride db rid did now =
          .error { message := "Ride not found", status_code := 404 }) ∧
      (∀ r, find_ride db rid = some r → r.driver_id ≠ some did →
        accept_ride db rid did now =
          .error { message := "You are not assigned to this ride",
                   status_code := 403 }) ∧
      (∀ r, find_ride db rid = some r → r.driver_id = some did →
        valid_transition r.status .booked = false →
        accept_ride db rid did now =
          .error { message := invalid_transition_message r.status .booked }) ∧
      (∀ r, find_ride db rid = some r → r.driver_id = some did →
        valid_transition r.status .booked = true →
        (db.rides.map Ride.id).Nodup →
        ∃ db', accept_ride db rid did now = .ok db' ∧
          ∀ a ∈ db.rides, ∀ b ∈ db'.rides, b.id = a.id →
            b.status = a.status ∨ valid_transition a.status b.status = true)) ∧
    (∀ (db : DB) (rid did : Nat) (now : Int),
      (∀ r, find_ride db rid = some r → r.driver_id = some did →
        valid_transition r.status .in_progress = false →
        start_ride db rid did now =
          .error { message := invalid_transition_message r.status .in_progress }) ∧
      (∀ r, find_ride db rid = some r → r.driver_id = some did →
        valid_transition r.status .in_progress = true →
        (db.rides.map Ride.id).Nodup →
        ∃ db', start_ride db rid did now = .ok db' ∧
          ∀ a ∈ db.rides, ∀ b ∈ db'.rides, b.id = a.id →
            b.status = a.status ∨ valid_transition a.status b.status = true)) ∧
    (∀ (db : DB) (rid did : Nat) (now : Int),
      (∀ r, find_ride db rid = some r → r.driver_id = some did →
        valid_transition r.status .completed = false →
        complete_ride db rid did now =
          .error { message := invalid_transition_message r.status .completed }) ∧
      (∀ r, find_ride db rid = some r → r.driver_id = some did →
        valid_transition r.status .completed = true →
        (db.rides.map Ride.id).Nodup →
        ∃ db', complete_ride db rid did now = .ok db' ∧
          ∀ a ∈ db.rides, ∀ b ∈ db'.rides, b.id = a.id →
            b.status = a.status ∨ valid_transition a.status b.status = true)) ∧
    (∀ (db : DB) (rid cb : Nat) (notes : Option String) (now : Int),
      (∀ r, find_ride db rid = some r →
        valid_transition r.status .cancelled = false →
        cancel_ride db rid cb notes now =
          .error { message := invalid_transition_message r.status .cancelled }) ∧
      (∀ r, find_ride db rid = some r →
        valid_transition r.status .cancelled = true →
        (db.rides.map Ride.id).Nodup →
        ∃ db', cancel_ride db rid cb notes now = .ok db' ∧
          ∀ a ∈ db.rides, ∀ b ∈ db'.rides, b.id = a.id →
            b.status = a.status ∨ valid_transition a.status b.status = true)) ∧
    (∀ (db : DB) (now : Int), (db.rides.map Ride.id).Nodup →
      ∀ a ∈ db.rides, ∀ b ∈ (check_critical_rides db now).1.rides, b.id = a.id →
        b.status = a.status ∨ valid_transition a.status b.status = true) ∧
    (∀ (db : DB) (oid : String) (now : Int) (db' : DB) (resp : CancelResponse),
      cancel_order db oid now = .ok (db', resp) →
      (db.rides.map Ride.id).Nodup →
      ∀ a ∈ db.rides, ∀ b ∈ db'.rides, b.id = a.id →
        b.status = a.status ∨ valid_transition a.status b.status = true) := by
  refine ⟨?_, ?_, ?_, ?_, ?_, ?_⟩
  · intro db rid did now
    refine ⟨?_, ?_, ?_, ?_⟩
    · intro hnone
      simp [accept_ride, hnone]
    · intro r hfind hdrv
      simp [accept_ride, hfind, hdrv]
    · intro r hfind hdrv hval
      simp [accept_ride, hfind, hdrv, hval]
    · intro r hfind hdrv hval hnodup
      simp only [accept_ride, hfind]
      rw [if_neg (by simp [hdrv]), if_neg (by simp [hval])]
      exact ⟨_, rfl, replace_ride_status_edge db.rides r _ hnodup
        (List.mem_of_find?_eq_some hfind) rfl (Or.inr hval)⟩
  · intro db rid did now
    refine ⟨?_, ?_⟩
    · intro r hfind hdrv hval
      simp [start_ride, hfind, hdrv, hval]
    · intro r hfind hdrv hval hnodup
      simp only [start_ride, hfind]
      rw [if_neg (by simp [hdrv]), if_neg (by simp [hval])]
      exact ⟨_, rfl, replace_ride_status_edge db.rides r _ hnodup
        (List.mem_of_find?_eq_some hfind) rfl (Or.inr hval)⟩
  · intro db rid did now
    refine ⟨?_, ?_⟩
    · intro r hfind hdrv hval
      simp [complete_ride, hfind, hdrv, hval]
    · intro r hfind hdrv hval hnodup
      simp only [complete_ride, hfind]
      rw [if_neg (by simp [hdrv]), if_neg (by simp [hval])]
      exact ⟨_, rfl, replace_ride_status_edge db.rides r _ hnodup
        (List.mem_of_find?_eq_some hfind) rfl (Or.inr hval)⟩
  · intro db rid cb notes now
    refine ⟨?_, ?_⟩
    · intro r hfind hval
      simp [cancel_ride, hfind, hval]
    · intro r hfind hval hnodup
      simp only [cancel_ride, hfind]
      rw [if_neg (by simp [hval])]
      exact ⟨_, rfl, replace_ride_status_edge db.rides r _ hnodup
        (List.mem_of_find?_eq_some hfind) rfl (Or.inr hval)⟩
  · intro db now hnodup a ha b hb hid
    simp only [check_critical_rides] at hb
    rcases List.mem_map.mp hb with ⟨x, hx, hfx⟩
    have hxid : x.id = a.id := by
      rw [← hid, ← hfx]
      by_cases hc : is_critical_candidate now x = true
      · simp [hc, escalate_ride]
      · simp [Bool.of_not_eq_true hc]
    have hxa : x = a := List.inj_on_of_nodup_map hnodup hx ha hxid
    subst hxa
    by_cases hc : is_critical_candidate now x = true
    · right
      rw [← hfx, if_pos hc]
      have hstat : x.status = .to_assign := by
        unfold is_critical_candidate at hc
        simp only [Bool.and_eq_true, beq_iff_eq, decide_eq_true_eq] at hc
        exact hc.1.1
      rw [hstat]
      rfl
    · left
      rw [← hfx, if_neg hc]
  · intro db oid now db' resp hok hnodup
    cases hfind : find_ride_by_external_id db oid with
    | none => simp [cancel_order, hfind] at hok
    | some ride =>
      simp only [cancel_order, hfind] at hok
      by_cases hterm : ride.status = RideStatus.completed ∨
          ride.status = RideStatus.cancelled
      · rw [if_pos hterm] at hok; simp at hok
      · rw [if_neg hterm] at hok
        injection hok with h
        rw [Prod.mk.injEq] at h
        obtain ⟨h1, h2⟩ := h
        subst h1
        intro a ha b hb hid
        refine replace_ride_status_edge db.rides ride
          { ride with status := RideStatus.cancelled, updated_at := now } hnodup
          (List.mem_of_find?_eq_some hfind) rfl ?_ a ha b hb hid
        right
        show valid_transition ride.status RideStatus.cancelled = true
        push_neg at hterm
        obtain ⟨ht1, ht2⟩ := hterm
        cases hs : ride.status with
        | to_assign => decide
        | booked => decide
        | in_progress => decide
        | critical => decide
        | completed => exact absurd hs ht1
        | cancelled => exact absurd hs ht2

/-- A one-ride store for instantiating the C1 theorem. -/
def C1w_ride : Ride :=
  { id := 1, source_platform := "webhook", status := RideStatus.to_assign,
    scheduled_at := 100, driver_id := some 5 }

/-- The store holding `C1w_ride`. -/
def C1w_db : DB := { rides := [C1w_ride] }

/-- Witness for C1: in a concrete one-ride store, the driver's accept from
`to_assign` succeeds and every ride's status moved along a table edge. -/
theorem C1_engine_transitions_follow_table_witness :
    (find_ride C1w_db 1 = some C1w_ride ∧
      C1w_ride.driver_id = some 5 ∧
      valid_transition C1w_ride.status .booked = true ∧
      (C1w_db.rides.map Ride.id).Nodup) ∧
    (∃ db', accept_ride C1w_db 1 5 0 = .ok db' ∧
      ∀ a ∈ C1w_db.rides, ∀ b ∈ db'.rides, b.id = a.id →
        b.status = a.status ∨ valid_transition a.status b.status = true) :=
  ⟨⟨rfl, rfl, rfl, by decide⟩,
   (C1_engine_transitions_follow_table.1 C1w_db 1 5 0).2.2.2 C1w_ride
     rfl rfl rfl (by decide)⟩

/-! ### C2 -/

/-- A one-search offer cache for the C2 counterexample. -/
def C2x_cache : OfferCache :=
  [("s1", [("o1", { category := .standard, car_model := "Toyota Corolla",
                    price := 65, distance := 50, duration := 75,
                    free_cancel_until := 913600, start_date_time := 1000000,
                    passengers := 2, seats := 4, luggage_places := 2 })])]

/-- A booking request against that cache. -/
def C2x_request : BookRequest :=
  { offer_id := "o1", start_point := {}, end_point := {}, passengers := 2,
    main_passenger := { first_name := "Anna", last_name := "Rossi",
                        phone := "+390001" } }

/-- C2 is refuted at a concrete input: a successful Marketplace-A booking
creates a ride (rides grow from 0 to 1) while the history stays empty — a
ride creation with no corresponding history row. -/
theorem C2_counterexample :
    (book_transfer C2x_cache {} C2x_request 7 "AV1" 500).toOption.map
      (fun out => (out.2.1.rides.length, out.2.1.history.length))
      = some (1, 0) := rfl

/-- C2 (amended): ride creation and status changes performed through the
lifecycle engine (`create_ride`, `accept_ride`, `start_ride`,
`complete_ride`, `cancel_ride`), the critical sweep, and the Marketplace-B
new-booking and cancellation webhooks each append exactly one history row
recording that change (creation rows carry `old_status = null`), and only
ever append to the existing history; but Marketplace-A `book_transfer`
creates a ride with no history row, Marketplace-A `cancel_order` changes
the status with no history row, and the generic direct-booking endpoint
creates a ride with no history row. -/
theorem C2_history_rows :
    (∀ (db : DB) (ride : Ride) (cb : Option Nat) (now : Int),
      ∃ h, (create_ride db ride cb now).1.history = db.history ++ [h] ∧
        h.old_status = none ∧ h.new_status = ride.status ∧
        (create_ride db ride cb now).1.rides.length = db.rides.length + 1) ∧
    (∀ (db : DB) (rid did : Nat) (now : Int) (r : Ride),
      find_ride db rid = some r → r.driver_id = some did →
      valid_transition r.status .booked = true →
      ∃ db' h, accept_ride db rid did now = .ok db' ∧
        db'.history = db.history ++ [h] ∧
        h.ride_id = r.id ∧ h.old_status = some r.status ∧
        h.new_status = .booked) ∧
    (∀ (db : DB) (rid did : Nat) (now : Int) (r : Ride),
      find_ride db rid = some r → r.driver_id = some did →
      valid_transition r.status .in_progress = true →
      ∃ db' h, start_ride db rid did now = .ok db' ∧
        db'.history = db.history ++ [h] ∧
        h.ride_id = r.id ∧ h.old_status = some r.status ∧
        h.new_status = .in_progress) ∧
    (∀ (db : DB) (rid did : Nat) (now : Int) (r : Ride),
      find_ride db rid = some r → r.driver_id = some did →
      valid_transition r.status .completed = true →
      ∃ db' h, complete_ride db rid did now = .ok db' ∧
        db'.history = db.history ++ [h] ∧
        h.ride_id = r.id ∧ h.old_status = some r.status ∧
        h.new_status = .completed) ∧
    (∀ (db : DB) (rid cb : Nat) (notes : Option String) (now : Int) (r : Ride),
      find_ride db rid = some r →
      valid_transition r.status .cancelled = true →
      ∃ db' h, cancel_ride db rid cb notes now = .ok db' ∧
        db'.history = db.history ++ [h] ∧
        h.ride_id = r.id ∧ h.old_status = some r.status ∧
        h.new_status = .cancelled) ∧
    (∀ (db : DB) (now : Int),
      ∃ rows, (check_critical_rides db now).1.history = db.history ++ rows ∧
        rows.length = (db.rides.filter (is_critical_candidate now)).length ∧
        ∀ h ∈ rows, h.old_status = some .to_assign ∧ h.new_status = .critical ∧
          h.notes = some critical_history_note) ∧
    (∀ (db : DB) (payload : BookingWebhookPayload) (u : Nat) (now : Int),
      (has_booking_ref db payload.bookingReference = false →
        ∃ h, (booking_new db payload u now).1.history = db.history ++ [h] ∧
          h.old_status = none ∧ h.new_status = .to_assign ∧
          (booking_new db payload u now).1.rides.length = db.rides.length + 1) ∧
      (has_booking_ref db payload.bookingReference = true →
        booking_new db payload u now = (db, 204))) ∧
    (∀ (db : DB) (ref : String) (payload : BookingUpdatePayload) (now : Int)
        (r : Ride),
      db.rides.find? (fun x => x.booking_reference == some ref &&
        x.source_platform == "booking.com") = some r →
      payload.action = "CANCELLATION" →
      ∃ h, (booking_update db ref payload now).1.history = db.history ++ [h] ∧
        h.ride_id = r.id ∧ h.old_status = some r.status ∧
        h.new_status = .cancelled) ∧
    (∀ (cache : OfferCache) (db : DB) (request : BookRequest) (u : Nat)
        (oid : String) (now : Int) (od : OfferData),
      find_offer cache request.offer_id = some od →
      ∃ out, book_transfer cache db request u oid now = .ok out ∧
        out.2.1.history = db.history ∧
        out.2.1.rides.length = db.rides.length + 1) ∧
    (∀ (db : DB) (oid : String) (now : Int) (r : Ride),
      find_ride_by_external_id db oid = some r →
      ¬ (r.status = .completed ∨ r.status = .cancelled) →
      ∃ db' resp, cancel_order db oid now = .ok (db', resp) ∧
        db'.history = db.history ∧
        (∃ r' ∈ db'.rides, r'.id = r.id ∧ r'.status = .cancelled)) ∧
    (∀ (db : DB) (payload : RideWebhook) (u : Nat) (now : Int),
      (opt_str_truthy payload.external_id &&
        db.rides.any (fun r => r.external_id == payload.external_id &&
          r.source_platform == payload.source_platform)) = false →
      ∃ db' ride, receive_booking db payload u now = .ok (db', ride) ∧
        db'.history = db.history ∧
        db'.rides.length = db.rides.length + 1) := by
  refine ⟨?_, ?_, ?_, ?_, ?_, ?_, ?_, ?_, ?_, ?_, ?_⟩
  · intro db ride cb now
    exact ⟨_, rfl, rfl, rfl, by simp [create_ride]⟩
  · intro db rid did now r hfind hdrv hval
    simp only [accept_ride, hfind]
    rw [if_neg (by simp [hdrv]), if_neg (by simp [hval])]
    exact ⟨_, _, rfl, rfl, rfl, rfl, rfl⟩
  · intro db rid did now r hfind hdrv hval
    simp only [start_ride, hfind]
    rw [if_neg (by simp [hdrv]), if_neg (by simp [hval])]
    exact ⟨_, _, rfl, rfl, rfl, rfl, rfl⟩
  · intro db rid did now r hfind hdrv hval
    simp only [complete_ride, hfind]
    rw [if_neg (by simp [hdrv]), if_neg (by simp [hval])]
    exact ⟨_, _, rfl, rfl, rfl, rfl, rfl⟩
  · intro db rid cb notes now r hfind hval
    simp only [cancel_ride, hfind]
    rw [if_neg (by simp [hval])]
    exact ⟨_, _, rfl, rfl, rfl, rfl, rfl⟩
  · intro db now
    refine ⟨_, rfl, by simp [create_history], ?_⟩
    intro h hh
    rcases List.mem_map.mp hh with ⟨r, hr, hfr⟩
    have hc : is_critical_candidate now r = true := List.of_mem_filter hr
    have hstat : r.status = .to_assign := by
      unfold is_critical_candidate at hc
      simp only [Bool.and_eq_true, beq_iff_eq, decide_eq_true_eq] at hc
      exact hc.1.1
    subst hfr
    exact ⟨by simp [create_history, hstat], rfl, rfl⟩
  · intro db payload u now
    constructor
    · intro hnew
      unfold booking_new
      rw [if_neg (by simp [hnew])]
      exact ⟨_, rfl, rfl, rfl, by simp⟩
    · intro hdup
      simp [booking_new, hdup]
  · intro db ref payload now r hfind haction
    simp only [booking_update, hfind]
    rw [if_pos haction]
    exact ⟨_, rfl, rfl, rfl, rfl⟩
  · intro cache db request u oid now od hoffer
    simp only [book_transfer, hoffer]
    exact ⟨_, rfl, rfl, by simp⟩
  · intro db oid now r hfind hterm
    simp only [cancel_order, hfind]
    rw [if_neg hterm]
    refine ⟨_, _, rfl, rfl, ?_⟩
    refine ⟨{ r with status := RideStatus.cancelled, updated_at := now }, ?_, rfl, rfl⟩
    show _ ∈ replace_ride db.rides _
    have hmem := List.mem_of_find?_eq_some hfind
    rw [replace_ride]
    rcases List.mem_iff_get.mp hmem with ⟨i, hi⟩
    apply List.mem_map.mpr
    exact ⟨r, hmem, by simp⟩
  · intro db payload u now hguard
    unfold receive_booking
    rw [if_neg (by simp [hguard])]
    exact ⟨_, _, rfl, rfl, by simp⟩

/-- A first-receipt Booking.com payload for the C2 witness. -/
def C2w_payload : BookingWebhookPayload :=
  { bookingReference := "BREF-1", customerReference := "CUST-9",
    leadPassenger := { firstName := "Mario", lastName := "Bianchi" } }

/-- Witness for C2 (amended): the new-booking webhook at an empty store
writes exactly one creation history row with `old_status = null`. -/
theorem C2_history_rows_witness :
    has_booking_ref {} C2w_payload.bookingReference = false ∧
    (∃ h, (booking_new {} C2w_payload 3 50).1.history = ({} : DB).history ++ [h] ∧
      h.old_status = none ∧ h.new_status = .to_assign ∧
      (booking_new {} C2w_payload 3 50).1.rides.length = ({} : DB).rides.length + 1) :=
  ⟨rfl, (C2_history_rows.2.2.2.2.2.2.1 {} C2w_payload 3 50).1 rfl⟩

/-! ### C3 -/

/-- C3: completing a ride twice. With the ride in `in_progress` and the
caller its assigned driver, the first `complete_ride` succeeds (stamping
`completed_at` and applying the driver-statistics update to exactly the
matching driver rows, once), and the second `complete_ride` on the
resulting store fails with the invalid-transition error — producing no new
store state, so the aggregates cannot be incremented twice. -/
theorem C3_complete_twice (db : DB) (rid did : Nat) (now1 now2 : Int)
    (r : Ride) (hfind : find_ride db rid = some r)
    (hdrv : r.driver_id = some did) (hst : r.status = .in_progress) :
    ∃ db1, complete_ride db rid did now1 = .ok db1 ∧
      ∃ r', find_ride db1 rid = some r' ∧
        r'.status = .completed ∧ r'.completed_at = some now1 ∧
        complete_ride db1 rid did now2 =
          .error { message := invalid_transition_message .completed .completed } ∧
        db1.drivers = db.drivers.map (fun d =>
          if d.user_id == did then update_driver_stats d r' now1 else d) := by
  have hval : valid_transition r.status .completed = true := by rw [hst]; rfl
  have hsecond : ∀ (db2 : DB) (r2 : Ride), find_ride db2 rid = some r2 →
      r2.driver_id = some did → r2.status = RideStatus.completed →
      complete_ride db2 rid did now2 =
        .error { message := invalid_transition_message .completed .completed } := by
    intro db2 r2 hf hd hs2
    simp only [complete_ride, hf]
    rw [if_neg (by simp [hd]), if_pos (by rw [hs2]; decide)]
    rw [hs2]
  simp only [complete_ride, hfind]
  rw [if_neg (by simp [hdrv]), if_neg (by simp [hval])]
  refine ⟨_, rfl, ?_⟩
  refine ⟨{ r with status := RideStatus.completed, completed_at := some now1, updated_at := now1 }, ?_, rfl, rfl, ?_, ?_⟩
  · unfold find_ride
    apply find?_replace_ride db.rides (fun x => x.id == rid) r
      { r with status := RideStatus.completed, completed_at := some now1, updated_at := now1 }
      hfind rfl
    have hpr := @List.find?_some Ride (fun x => x.id == rid) r db.rides hfind
    exact hpr
  · apply hsecond
    · unfold find_ride
      apply find?_replace_ride db.rides (fun x => x.id == rid) r
        { r with status := RideStatus.completed, completed_at := some now1, updated_at := now1 }
        hfind rfl
      have hpr := @List.find?_some Ride (fun x => x.id == rid) r db.rides hfind
      exact hpr
    · exact hdrv
    · rfl
  · rfl

/-- A one-ride, one-driver store for the C3 witness. -/
def C3w_ride : Ride :=
  { id := 1, source_platform := "webhook", status := RideStatus.in_progress,
    scheduled_at := 100, driver_id := some 5, distance_km := some 12,
    driver_share := some 40 }

/-- The store holding `C3w_ride` and driver 5's statistics row. -/
def C3w_db : DB :=
  { rides := [C3w_ride],
    drivers := [{ user_id := 5, total_km := some 100, total_rides := some 7,
                  total_earnings := some 900 }] }

/-- Witness for C3 at a concrete store (driver 5 completes ride 1). -/
theorem C3_complete_twice_witness :
    (find_ride C3w_db 1 = some C3w_ride ∧ C3w_ride.driver_id = some 5 ∧
      C3w_ride.status = .in_progress) ∧
    (∃ db1, complete_ride C3w_db 1 5 1000 = .ok db1 ∧
      ∃ r', find_ride db1 1 = some r' ∧
        r'.status = .completed ∧ r'.completed_at = some 1000 ∧
        complete_ride db1 1 5 2000 =
          .error { message := invalid_transition_message .completed .completed } ∧
        db1.drivers = C3w_db.drivers.map (fun d =>
          if d.user_id == 5 then update_driver_stats d r' 1000 else d)) :=
  ⟨⟨rfl, rfl, rfl⟩, C3_complete_twice C3w_db 1 5 1000 2000 C3w_ride rfl rfl rfl⟩

/-! ### C4 -/

/-- C4: one run of the critical sweep escalates exactly the rides that are
still `to_assign` and scheduled strictly in the future but at most 3 hours
(10800 s) away; each escalated ride becomes `critical` with `critical_at`
stamped, gets one history row carrying the fixed auto-escalation note, and
one notification is created per escalated ride per admin/assistant user;
all other rides are untouched. -/
theorem C4_critical_sweep (db : DB) (now : Int) :
    (∀ r ∈ db.rides, (is_critical_candidate now r = true ↔
      (r.status = .to_assign ∧ now < r.scheduled_at ∧
        r.scheduled_at ≤ now + 10800))) ∧
    (∀ r ∈ db.rides, is_critical_candidate now r = true →
      escalate_ride now r ∈ (check_critical_rides db now).1.rides ∧
      (escalate_ride now r).status = .critical ∧
      (escalate_ride now r).critical_at = some now ∧
      (escalate_ride now r).id = r.id) ∧
    (∀ r ∈ db.rides, is_critical_candidate now r = false →
      r ∈ (check_critical_rides db now).1.rides) ∧
    (∃ rows, (check_critical_rides db now).1.history = db.history ++ rows ∧
      rows.length = (db.rides.filter (is_critical_candidate now)).length ∧
      ∀ h ∈ rows, h.new_status = .critical ∧
        h.notes = some critical_history_note ∧ h.changed_at = now) ∧
    ((check_critical_rides db now).1.notifications.length =
      db.notifications.length +
        (db.rides.filter (is_critical_candidate now)).length *
          (admin_users db).length) ∧
    ((check_critical_rides db now).2 =
      (db.rides.filter (is_critical_candidate now)).map (escalate_ride now)) := by
  refine ⟨?_, ?_, ?_, ?_, ?_, rfl⟩
  · intro r _
    unfold is_critical_candidate
    simp only [Bool.and_eq_true, beq_iff_eq, decide_eq_true_eq]
    tauto
  · intro r hr hc
    refine ⟨?_, rfl, rfl, rfl⟩
    simp only [check_critical_rides]
    apply List.mem_map.mpr
    exact ⟨r, hr, by rw [if_pos hc]⟩
  · intro r hr hc
    simp only [check_critical_rides]
    apply List.mem_map.mpr
    exact ⟨r, hr, by rw [hc]; simp⟩
  · refine ⟨_, rfl, by simp, ?_⟩
    intro h hh
    rcases List.mem_map.mp hh with ⟨r, _, hfr⟩
    subst hfr
    exact ⟨rfl, rfl, rfl⟩
  · show (db.notifications ++ _).length = _
    rw [List.length_append, List.length_flatMap]
    congr 1
    have : ∀ l : List Ride,
        (List.map (List.length ∘ fun r => (admin_users db).map (fun admin =>
          create_notification admin.id "ride_critical" "Corsa critica"
            (critical_body r) (some r.id) now)) l).sum
          = l.length * (admin_users db).length := by
      intro l
      rw [show (List.length ∘ fun r : Ride => (admin_users db).map (fun admin =>
        create_notification admin.id "ride_critical" "Corsa critica"
          (critical_body r) (some r.id) now))
        = fun _ : Ride => (admin_users db).length from funext (fun r => by
          simp [Function.comp])]
      exact sum_map_const_nat l _
    exact this _

/-- Sweep-witness rides: scheduled 2h59m ahead, 3h01m ahead, and 10 minutes
in the past (all `to_assign`). -/
def C4w_r1 : Ride := { id := 1, source_platform := "w", scheduled_at := 10740 }

/-- The 3h01m-ahead ride. -/
def C4w_r2 : Ride := { id := 2, source_platform := "w", scheduled_at := 10860 }

/-- The 10-minutes-past ride. -/
def C4w_r3 : Ride := { id := 3, source_platform := "w", scheduled_at := -600 }

/-- The sweep-witness store with one admin user. -/
def C4w_db : DB :=
  { rides := [C4w_r1, C4w_r2, C4w_r3], users := [{ id := 50, role := .admin }] }

/-- Witness for C4 at time 0: the 2h59m ride is selected and escalated; the
3h01m and past rides are not selected. -/
theorem C4_critical_sweep_witness :
    (C4w_r1 ∈ C4w_db.rides ∧ is_critical_candidate 0 C4w_r1 = true ∧
      is_critical_candidate 0 C4w_r2 = false ∧
      is_critical_candidate 0 C4w_r3 = false) ∧
    (escalate_ride 0 C4w_r1 ∈ (check_critical_rides C4w_db 0).1.rides ∧
      (escalate_ride 0 C4w_r1).status = .critical ∧
      (escalate_ride 0 C4w_r1).critical_at = some 0 ∧
      (escalate_ride 0 C4w_r1).id = C4w_r1.id) :=
  ⟨⟨by decide, rfl, rfl, rfl⟩,
   (C4_critical_sweep C4w_db 0).2.1 C4w_r1 (by decide) rfl⟩

/-! ### C5 -/

/-- C5: Marketplace-A cancel. When the order's ride is already completed
or cancelled, `cancel_order` fails with the cannot-cancel error; otherwise
it cancels the ride and returns a penalty equal to the full ride price if
the cancellation is less than 24 hours (86400 s) before `scheduled_at`,
and zero otherwise. -/
theorem C5_cancel_penalty (db : DB) (order_id : String) (now : Int)
    (r : Ride) (hfind : find_ride_by_external_id db order_id = some r) :
    (r.status = .completed ∨ r.status = .cancelled →
      cancel_order db order_id now =
        .error { message := "Order " ++ order_id ++ " cannot be cancelled (status: " ++ r.status.value ++ ")",
                 status_code := 400 }) ∧
    (¬ (r.status = .completed ∨ r.status = .cancelled) →
      ∃ db', cancel_order db order_id now = .ok (db',
          { penalty_amount :=
              if r.scheduled_at - now < 86400 then r.price.getD 0 else 0 }) ∧
        find_ride_by_external_id db' order_id =
          some { r with status := RideStatus.cancelled, updated_at := now } ∧
        db'.history = db.history) := by
  constructor
  · intro hterm
    simp only [cancel_order, hfind]
    rw [if_pos hterm]
  · intro hterm
    have hpen : (match r.price with
        | some p => if p = 0 then (0 : Rat) else p
        | none => 0) = r.price.getD 0 := by
      cases hp : r.price with
      | none => rfl
      | some p =>
        by_cases hz : p = 0
        · simp [hz]
        · simp [hz]
    simp only [cancel_order, hfind]
    rw [if_neg hterm, hpen]
    refine ⟨_, rfl, ?_, rfl⟩
    apply find?_replace_ride db.rides (fun x => x.external_id == some order_id) r
      { r with status := RideStatus.cancelled, updated_at := now } hfind rfl
    have hpr := @List.find?_some Ride (fun x => x.external_id == some order_id) r
      db.rides hfind
    exact hpr

/-- Penalty-witness rides: price 100, scheduled 23h ahead and 25h ahead. -/
def C5w_rA : Ride :=
  { id := 1, external_id := some "OA", source_platform := "etg",
    scheduled_at := 82800, price := some 100 }

/-- The 25h-ahead ride. -/
def C5w_rB : Ride :=
  { id := 2, external_id := some "OB", source_platform := "etg",
    scheduled_at := 90000, price := some 100 }

/-- The penalty-witness store. -/
def C5w_db : DB := { rides := [C5w_rA, C5w_rB] }

/-- Witness for C5 at time 0: cancelling the 23h-ahead ride charges the
full price 100; cancelling the 25h-ahead ride charges 0. -/
theorem C5_cancel_penalty_witness :
    (find_ride_by_external_id C5w_db "OA" = some C5w_rA ∧
      ¬ (C5w_rA.status = .completed ∨ C5w_rA.status = .cancelled) ∧
      (if C5w_rA.scheduled_at - 0 < 86400 then C5w_rA.price.getD 0 else 0) = 100) ∧
    (find_ride_by_external_id C5w_db "OB" = some C5w_rB ∧
      ¬ (C5w_rB.status = .completed ∨ C5w_rB.status = .cancelled) ∧
      (if C5w_rB.scheduled_at - 0 < 86400 then C5w_rB.price.getD 0 else 0) = 0) ∧
    (∃ db', cancel_order C5w_db "OA" 0 = .ok (db',
        { penalty_amount :=
            if C5w_rA.scheduled_at - 0 < 86400 then C5w_rA.price.getD 0 else 0 }) ∧
      find_ride_by_external_id db' "OA" =
        some { C5w_rA with status := RideStatus.cancelled, updated_at := 0 } ∧
      db'.history = C5w_db.history) ∧
    (∃ db', cancel_order C5w_db "OB" 0 = .ok (db',
        { penalty_amount :=
            if C5w_rB.scheduled_at - 0 < 86400 then C5w_rB.price.getD 0 else 0 }) ∧
      find_ride_by_external_id db' "OB" =
        some { C5w_rB with status := RideStatus.cancelled, updated_at := 0 } ∧
      db'.history = C5w_db.history) :=
  ⟨⟨rfl, by decide, by decide⟩, ⟨rfl, by decide, by decide⟩,
   (C5_cancel_penalty C5w_db "OA" 0 C5w_rA rfl).2 (by decide),
   (C5_cancel_penalty C5w_db "OB" 0 C5w_rB rfl).2 (by decide)⟩

/-! ### C6 -/

/-- C6: Marketplace-A booking against the offer cache. An offer id not
present in any cached search fails with the search-again client error and
yields no store (so no ride is created); a successful booking appends one
ride in `to_assign` and returns the cache unchanged, so booking the same
offer id again still succeeds. -/
theorem C6_book_offer_cache (cache : OfferCache) (db : DB)
    (request : BookRequest) (ride_uuid : Nat) (order_id : String)
    (now : Int) :
    (find_offer cache request.offer_id = none →
      book_transfer cache db request ride_uuid order_id now =
        .error { message := "Invalid or expired offer_id. Please search again.",
                 status_code := 400 }) ∧
    (∀ od, find_offer cache request.offer_id = some od →
      ∃ cache' db' resp,
        book_transfer cache db request ride_uuid order_id now =
          .ok (cache', db', resp) ∧
        cache' = cache ∧
        (∃ ride, db'.rides = db.rides ++ [ride] ∧ ride.status = .to_assign ∧
          ride.external_id = some order_id ∧ ride.source_platform = "etg" ∧
          ride.price = some od.price) ∧
        (∀ (u2 : Nat) (oid2 : String) (n2 : Int), ∃ out,
          book_transfer cache' db' request u2 oid2 n2 = .ok out)) := by
  constructor
  · intro hnone
    simp [book_transfer, hnone]
  · intro od hod
    simp only [book_transfer, hod]
    refine ⟨_, _, _, rfl, rfl, ⟨_, rfl, rfl, rfl, rfl, rfl⟩, ?_⟩
    intro u2 oid2 n2
    simp only [book_transfer, hod]
    exact ⟨_, rfl⟩

/-- The cached offer record for the C6 witness. -/
def C6w_offer : OfferData :=
  { category := .economy, car_model := "Fiat Tipo", price := 50,
    distance := 50, duration := 75, free_cancel_until := 913600,
    start_date_time := 1000000, passengers := 2, seats := 4,
    luggage_places := 2 }

/-- A one-offer cache for the C6 witness. -/
def C6w_cache : OfferCache := [("srch", [("off-9", C6w_offer)])]

/-- A request for a cached offer, and one for an unknown offer id. -/
def C6w_request : BookRequest :=
  { offer_id := "off-9", start_point := {}, end_point := {}, passengers := 2,
    main_passenger := { first_name := "Luca", last_name := "Verdi",
                        phone := "+390002" } }

/-- The same request with an unknown offer id. -/
def C6w_request_bad : BookRequest := { C6w_request with offer_id := "gone" }

/-- Witness for C6: the unknown offer id fails with the search-again
error; the cached one books successfully and remains bookable. -/
theorem C6_book_offer_cache_witness :
    (find_offer C6w_cache C6w_request_bad.offer_id = none ∧
      book_transfer C6w_cache {} C6w_request_bad 7 "AV2" 500 =
        .error { message := "Invalid or expired offer_id. Please search again.",
                 status_code := 400 }) ∧
    (find_offer C6w_cache C6w_request.offer_id =
      some C6w_offer ∧
      ∃ cache' db' resp,
        book_transfer C6w_cache {} C6w_request 7 "AV2" 500 =
          .ok (cache', db', resp) ∧
        cache' = C6w_cache ∧
        (∃ ride, db'.rides = ({} : DB).rides ++ [ride] ∧
          ride.status = .to_assign ∧ ride.external_id = some "AV2" ∧
          ride.source_platform = "etg" ∧
          ride.price = some C6w_offer.price) ∧
        (∀ (u2 : Nat) (oid2 : String) (n2 : Int), ∃ out,
          book_transfer cache' db' C6w_request u2 oid2 n2 = .ok out)) :=
  ⟨⟨rfl, (C6_book_offer_cache C6w_cache {} C6w_request_bad 7 "AV2" 500).1 rfl⟩,
   ⟨rfl, (C6_book_offer_cache C6w_cache {} C6w_request 7 "AV2" 500).2 _ rfl⟩⟩

/-! ### C7 -/

/-- C7: direct-booking duplicate rejection. With a truthy `external_id`
and no existing ride for the `(external_id, source_platform)` pair, the
first submission succeeds (the endpoint responds 201) and creates the
ride; resubmitting the same payload fails with the 409 conflict error and,
since the error path produces no store, exactly one ride row for the pair
exists afterwards. -/
theorem C7_direct_booking_dedup (db : DB) (payload : RideWebhook)
    (u1 u2 : Nat) (n1 n2 : Int)
    (hext : opt_str_truthy payload.external_id = true)
    (hnone : db.rides.any (fun r => r.external_id == payload.external_id &&
      r.source_platform == payload.source_platform) = false) :
    ∃ db' ride, receive_booking db payload u1 n1 = .ok (db', ride) ∧
      ride.external_id = payload.external_id ∧
      ride.source_platform = payload.source_platform ∧
      ride.status = .to_assign ∧
      receive_booking db' payload u2 n2 =
        .error { status_code := 409,
                 detail := "Ride with external_id '" ++ payload.external_id.getD "" ++ "' from '" ++ payload.source_platform ++ "' already exists" } ∧
      (db'.rides.filter (fun r => r.external_id == payload.external_id &&
        r.source_platform == payload.source_platform)).length = 1 := by
  have hfilter : db.rides.filter (fun r =>
      r.external_id == payload.external_id &&
      r.source_platform == payload.source_platform) = [] := by
    rw [List.filter_eq_nil_iff]
    intro a ha
    have := List.any_eq_false.mp hnone a ha
    simpa using this
  unfold receive_booking
  rw [if_neg (by simp [hnone])]
  refine ⟨_, _, rfl, rfl, rfl, rfl, ?_, ?_⟩
  · rw [if_pos (by simp [hext, List.any_append])]
  · simp [List.filter_append, hfilter]

/-- A direct-booking payload for the C7 witness. -/
def C7w_payload : RideWebhook :=
  { external_id := some "EXT-77", source_platform := "partner-x",
    pickup_address := "Via Roma 1", dropoff_address := "Via Milano 2",
    scheduled_at := 7200 }

/-- Witness for C7 at an empty store. -/
theorem C7_direct_booking_dedup_witness :
    (opt_str_truthy C7w_payload.external_id = true ∧
      (({} : DB).rides.any (fun r => r.external_id == C7w_payload.external_id &&
        r.source_platform == C7w_payload.source_platform)) = false) ∧
    (∃ db' ride, receive_booking {} C7w_payload 1 10 = .ok (db', ride) ∧
      ride.external_id = C7w_payload.external_id ∧
      ride.source_platform = C7w_payload.source_platform ∧
      ride.status = .to_assign ∧
      receive_booking db' C7w_payload 2 20 =
        .error { status_code := 409,
                 detail := "Ride with external_id '" ++ C7w_payload.external_id.getD "" ++ "' from '" ++ C7w_payload.source_platform ++ "' already exists" } ∧
      (db'.rides.filter (fun r => r.external_id == C7w_payload.external_id &&
        r.source_platform == C7w_payload.source_platform)).length = 1) :=
  ⟨⟨rfl, rfl⟩, C7_direct_booking_dedup {} C7w_payload 1 2 10 20 rfl rfl⟩

/-! ### C8 -/

/-- C8: the Marketplace-B new-booking webhook is idempotent on duplicate
`bookingReference`s: on first receipt it creates one ride and one creation
history row and responds 204; replaying the same payload responds 204
again and leaves the store exactly as it was, so exactly one ride with
that reference exists. -/
theorem C8_booking_webhook_idempotent (db : DB)
    (payload : BookingWebhookPayload) (u1 u2 : Nat) (n1 n2 : Int)
    (hnew : has_booking_ref db payload.bookingReference = false) :
    (booking_new db payload u1 n1).2 = 204 ∧
    (booking_new db payload u1 n1).1.rides.length = db.rides.length + 1 ∧
    (booking_new db payload u1 n1).1.history.length = db.history.length + 1 ∧
    booking_new (booking_new db payload u1 n1).1 payload u2 n2 =
      ((booking_new db payload u1 n1).1, 204) ∧
    ((booking_new db payload u1 n1).1.rides.filter (fun r =>
      r.booking_reference == some payload.bookingReference &&
      r.source_platform == "booking.com")).length = 1 := by
  have hfilter : db.rides.filter (fun r =>
      r.booking_reference == some payload.bookingReference &&
      r.source_platform == "booking.com") = [] := by
    rw [List.filter_eq_nil_iff]
    intro a ha
    have := List.any_eq_false.mp hnew a ha
    simpa using this
  unfold booking_new
  rw [if_neg (by simp [hnew])]
  refine ⟨rfl, by simp, by simp, ?_, ?_⟩
  · rw [if_pos ?_]
    unfold has_booking_ref
    simp [List.any_append]
  · simp [List.filter_append, hfilter]

/-- Witness for C8: replaying a Booking.com webhook at an empty store. -/
def C8w_payload : BookingWebhookPayload :=
  { bookingReference := "BK-42", customerReference := "CU-42",
    leadPassenger := { firstName := "Sara", lastName := "Neri" } }

/-- Witness theorem for C8. -/
theorem C8_booking_webhook_idempotent_witness :
    has_booking_ref {} C8w_payload.bookingReference = false ∧
    ((booking_new {} C8w_payload 1 10).2 = 204 ∧
      (booking_new {} C8w_payload 1 10).1.rides.length =
        ({} : DB).rides.length + 1 ∧
      (booking_new {} C8w_payload 1 10).1.history.length =
        ({} : DB).history.length + 1 ∧
      booking_new (booking_new {} C8w_payload 1 10).1 C8w_payload 2 20 =
        ((booking_new {} C8w_payload 1 10).1, 204) ∧
      ((booking_new {} C8w_payload 1 10).1.rides.filter (fun r =>
        r.booking_reference == some C8w_payload.bookingReference &&
        r.source_platform == "booking.com")).length = 1) :=
  ⟨rfl, C8_booking_webhook_idempotent {} C8w_payload 1 2 10 20 rfl⟩

/-! ### C9 -/

/-- A category has a (nonempty) group in the grouping list. -/
def has_offer_group (groups : List (TransferCategory × List Driver))
    (cat : TransferCategory) : Prop :=
  ∃ p ∈ groups, p.1 = cat ∧ p.2 ≠ []

theorem has_offer_group_add_self (groups : List (TransferCategory × List Driver))
    (cat : TransferCategory) (d : Driver) :
    has_offer_group (add_to_group groups cat d) cat := by
  unfold add_to_group
  by_cases hany : groups.any (fun p => p.1 == cat) = true
  · rw [if_pos hany]
    rcases List.any_eq_true.mp hany with ⟨p, hp, hpc⟩
    refine ⟨(p.1, p.2 ++ [d]), ?_, ?_, by simp⟩
    · apply List.mem_map.mpr
      exact ⟨p, hp, by rw [if_pos hpc]⟩
    · exact beq_iff_eq.mp hpc
  · rw [if_neg hany]
    exact ⟨(cat, [d]), by simp, rfl, by simp⟩

theorem has_offer_group_add_mono (groups : List (TransferCategory × List Driver))
    (c : TransferCategory) (d : Driver) (cat : TransferCategory)
    (h : has_offer_group groups cat) :
    has_offer_group (add_to_group groups c d) cat := by
  rcases h with ⟨p, hp, hpc, hpne⟩
  unfold add_to_group
  by_cases hany : groups.any (fun q => q.1 == c) = true
  · rw [if_pos hany]
    by_cases hpc' : (p.1 == c) = true
    · exact ⟨(p.1, p.2 ++ [d]), List.mem_map.mpr ⟨p, hp, by rw [if_pos hpc']⟩,
        hpc, by simp⟩
    · exact ⟨p, List.mem_map.mpr ⟨p, hp, by rw [if_neg hpc']⟩, hpc, hpne⟩
  · rw [if_neg hany]
    exact ⟨p, List.mem_append_left _ hp, hpc, hpne⟩

theorem has_offer_group_fold_mono (cats : List TransferCategory) (d : Driver)
    (groups : List (TransferCategory × List Driver)) (cat : TransferCategory)
    (h : has_offer_group groups cat) :
    has_offer_group (cats.foldl (fun g c => add_to_group g c d) groups) cat := by
  induction cats generalizing groups with
  | nil => exact h
  | cons c t ih => exact ih _ (has_offer_group_add_mono groups c d cat h)

theorem has_offer_group_fold_classify (cats : List TransferCategory)
    (d : Driver) (groups : List (TransferCategory × List Driver))
    (cat : TransferCategory) (hmem : cat ∈ cats) :
    has_offer_group (cats.foldl (fun g c => add_to_group g c d) groups) cat := by
  induction cats generalizing groups with
  | nil => simp at hmem
  | cons c t ih =>
    rcases List.mem_cons.mp hmem with hc | ht
    · subst hc
      exact has_offer_group_fold_mono t d _ cat
        (has_offer_group_add_self groups cat d)
    · exact ih _ ht

theorem has_offer_group_category_vehicles (drivers : List Driver)
    (passengers : Nat) (d : Driver) (cat : TransferCategory)
    (hd : d ∈ drivers) (hq : qualifies passengers d = true)
    (hcat : cat ∈ classify_vehicle d) :
    has_offer_group (category_vehicles drivers passengers) cat := by
  unfold category_vehicles
  have step : ∀ (l : List Driver) (groups : List (TransferCategory × List Driver)),
      (has_offer_group groups cat ∨
        ∃ x ∈ l, qualifies passengers x = true ∧ cat ∈ classify_vehicle x) →
      has_offer_group (l.foldl (fun g x =>
        if qualifies passengers x then
          (classify_vehicle x).foldl (fun g c => add_to_group g c x) g
        else g) groups) cat := by
    intro l
    induction l with
    | nil =>
      intro groups h
      rcases h with h | ⟨x, hx, _⟩
      · exact h
      · simp at hx
    | cons a t ih =>
      intro groups h
      rw [List.foldl_cons]
      rcases h with h | ⟨x, hx, hxq, hxc⟩
      · apply ih
        left
        by_cases ha : qualifies passengers a = true
        · rw [if_pos ha]
          exact has_offer_group_fold_mono _ a groups cat h
        · rw [if_neg ha]
          exact h
      · rcases List.mem_cons.mp hx with hxa | hxt
        · subst hxa
          apply ih
          left
          rw [if_pos hxq]
          exact has_offer_group_fold_classify _ x groups cat hxc
        · exact ih _ (Or.inr ⟨x, hxt, hxq, hxc⟩)
  exact step drivers [] (Or.inr ⟨d, hd, hq, hcat⟩)

/-- C9: Marketplace-A search pricing. Every emitted offer is priced by the
shared formula `round(max(rate × distance, min_fare) + child_seats × 5, 2)`
for its category; the offers are sorted ascending by the category's base
per-km rate; every category with at least one qualifying vehicle gets an
offer; and at distance 50 km the standard category (rate 1.30/km) prices
at 65. -/
theorem C9_search_pricing (cache : OfferCache) (drivers : List Driver)
    (request : SearchRequest) (search_id : String) (distance_km : Rat) :
    (∀ o ∈ (search_offers cache drivers request search_id distance_km).2,
      o.price = calculate_price o.transfer_category distance_km
        (request.children_seat_0 + request.children_seat_1 +
         request.children_seat_2 + request.children_seat_3)) ∧
    ((search_offers cache drivers request search_id distance_km).2).Pairwise
      (fun a b => CATEGORY_PRICING a.transfer_category ≤
        CATEGORY_PRICING b.transfer_category) ∧
    (∀ (d : Driver) (cat : TransferCategory), d ∈ drivers →
      qualifies request.passengers d = true → cat ∈ classify_vehicle d →
      ∃ o ∈ (search_offers cache drivers request search_id distance_km).2,
        o.transfer_category = cat) ∧
    calculate_price .standard 50 0 = 65 := by
  refine ⟨?_, ?_, ?_, ?_⟩
  · intro o ho
    simp only [search_offers] at ho
    rcases List.mem_filterMap.mp ho with ⟨p, _, hfp⟩
    rcases Option.map_eq_some'.mp hfp with ⟨b, _, hmk⟩
    subst hmk
    rfl
  · simp only [search_offers]
    apply List.Pairwise.filterMap
      (R := fun (a b : TransferCategory × List Driver) =>
        (decide (CATEGORY_PRICING a.1 ≤ CATEGORY_PRICING b.1)) = true)
    · intro a a' hR b hb b' hb'
      rcases Option.map_eq_some'.mp hb with ⟨x, _, hbx⟩
      rcases Option.map_eq_some'.mp hb' with ⟨x', _, hbx'⟩
      subst hbx
      subst hbx'
      exact of_decide_eq_true hR
    · exact List.sorted_mergeSort
        (fun a b c hab hbc => by
          simp only [decide_eq_true_eq] at *
          exact le_trans hab hbc)
        (fun a b => by
          simp only [Bool.or_eq_true, decide_eq_true_eq]
          exact le_total _ _)
        (category_vehicles drivers request.passengers)
  · intro d cat hd hq hcat
    have hgroup := has_offer_group_category_vehicles drivers request.passengers
      d cat hd hq hcat
    rcases hgroup with ⟨p, hp, hpcat, hpne⟩
    have hpsorted : p ∈ (category_vehicles drivers request.passengers).mergeSort
        (fun a b => decide (CATEGORY_PRICING a.1 ≤ CATEGORY_PRICING b.1)) :=
      (List.mergeSort_perm _ _).mem_iff.mpr hp
    rcases List.exists_mem_of_ne_nil p.2 hpne with ⟨b0, hb0⟩
    have hhead : ∃ b, p.2.head? = some b := by
      cases hsnd : p.2 with
      | nil => exact absurd hsnd hpne
      | cons y ys => exact ⟨y, rfl⟩
    rcases hhead with ⟨b, hb⟩
    refine ⟨make_offer search_id request distance_km
        (estimate_duration_min distance_km)
        (request.children_seat_0 + request.children_seat_1 +
         request.children_seat_2 + request.children_seat_3) p.1 b, ?_, ?_⟩
    · simp only [search_offers]
      apply List.mem_filterMap.mpr
      exact ⟨p, hpsorted, by rw [hb]; rfl⟩
    · exact hpcat
  · show round2 (max (CATEGORY_PRICING .standard * 50) (MIN_FARE .standard) +
      ((0 : Nat) : Rat) * CHILD_SEAT_PRICE) = 65
    rw [show CATEGORY_PRICING TransferCategory.standard = 13/10 from rfl,
        show MIN_FARE TransferCategory.standard = 15 from by norm_num [MIN_FARE, CATEGORY_PRICING]]
    norm_num [round2]

/-- A qualifying standard-category driver for the C9 witness. -/
def C9w_driver : Driver :=
  { user_id := 10, vehicle_make := some "Toyota",
    vehicle_model := some "Corolla", vehicle_seats := some 4 }

/-- A two-passenger search request for the C9 witness. -/
def C9w_request : SearchRequest := { start_date_time := 1000000, passengers := 2 }

/-- Witness for C9: with one qualifying Toyota Corolla and distance 50 km,
a standard-category offer is emitted and the standard price is 65. -/
theorem C9_search_pricing_witness :
    (C9w_driver ∈ [C9w_driver] ∧
      qualifies C9w_request.passengers C9w_driver = true ∧
      TransferCategory.standard ∈ classify_vehicle C9w_driver) ∧
    (∃ o ∈ (search_offers [] [C9w_driver] C9w_request "s1" 50).2,
      o.transfer_category = .standard) ∧
    calculate_price .standard 50 0 = 65 :=
  ⟨⟨by simp, rfl, by decide⟩,
   (C9_search_pricing [] [C9w_driver] C9w_request "s1" 50).2.2.1 C9w_driver
     .standard (by simp) rfl (by decide),
   (C9_search_pricing [] [C9w_driver] C9w_request "s1" 50).2.2.2⟩

/-! ### C10 -/

/-- C10: placeholder scheduling of Marketplace-B rides. The new-booking
webhook always sets `scheduled_at = now + 24h` (its payload carries no
pickup time); the polling importer falls back to `now + 24h` when
`pickupDateTime` is missing or unparsable; and such a ride is not selected
by a critical sweep running at its creation time (24h lies outside the
3-hour window). -/
theorem C10_placeholder_schedule (db : DB) (payload : BookingWebhookPayload)
    (u : Nat) (now : Int) (booking : BookingAPIBooking) (u2 : Nat)
    (hnew : has_booking_ref db payload.bookingReference = false)
    (hpickup : booking.pickupDateTime = none ∨
      booking.pickupDateTime = some .malformed) :
    (∃ ride, (booking_new db payload u now).1.rides = db.rides ++ [ride] ∧
      ride.scheduled_at = now + 86400 ∧
      is_critical_candidate now ride = false) ∧
    ((booking_to_ride booking u2 now).scheduled_at = now + 86400 ∧
      is_critical_candidate now (booking_to_ride booking u2 now) = false) := by
  have harith : ∀ r : Ride, r.scheduled_at = now + 86400 →
      is_critical_candidate now r = false := by
    intro r hr
    unfold is_critical_candidate
    rw [hr]
    have h1 : ¬ (now + 86400 ≤ now + 10800) := by omega
    simp [h1]
  constructor
  · unfold booking_new
    rw [if_neg (by simp [hnew])]
    refine ⟨_, rfl, rfl, ?_⟩
    exact harith _ rfl
  · have hsched : (booking_to_ride booking u2 now).scheduled_at = now + 86400 := by
      rcases hpickup with h | h
      · simp only [booking_to_ride, h]
      · simp only [booking_to_ride, h, parse_iso]
    exact ⟨hsched, harith _ hsched⟩

/-- A polled booking with no pickup time. -/
def C10w_booking : BookingAPIBooking :=
  { bookingReference := "BK-77", customerReference := "CU-77" }

/-- A polled booking with an unparsable pickup time. -/
def C10w_booking_bad : BookingAPIBooking :=
  { bookingReference := "BK-78", customerReference := "CU-78",
    pickupDateTime := some .malformed }

/-- A new-booking webhook payload for the C10 witness. -/
def C10w_payload : BookingWebhookPayload :=
  { bookingReference := "BK-79", customerReference := "CU-79",
    leadPassenger := { firstName := "Ida", lastName := "Blu" } }

/-- Witness for C10 at time 1000: the webhook-created ride and both polled
rides get `scheduled_at = 1000 + 86400` and are outside the critical
window. -/
theorem C10_placeholder_schedule_witness :
    (has_booking_ref {} C10w_payload.bookingReference = false ∧
      C10w_booking.pickupDateTime = none ∧
      C10w_booking_bad.pickupDateTime = some .malformed) ∧
    ((∃ ride, (booking_new {} C10w_payload 1 1000).1.rides =
        ({} : DB).rides ++ [ride] ∧
      ride.scheduled_at = 1000 + 86400 ∧
      is_critical_candidate 1000 ride = false) ∧
     ((booking_to_ride C10w_booking 2 1000).scheduled_at = 1000 + 86400 ∧
      is_critical_candidate 1000 (booking_to_ride C10w_booking 2 1000) = false) ∧
     ((booking_to_ride C10w_booking_bad 3 1000).scheduled_at = 1000 + 86400 ∧
      is_critical_candidate 1000
        (booking_to_ride C10w_booking_bad 3 1000) = false)) :=
  ⟨⟨rfl, rfl, rfl⟩,
   (C10_placeholder_schedule {} C10w_payload 1 1000 C10w_booking 2 rfl
     (Or.inl rfl)).1,
   (C10_placeholder_schedule {} C10w_payload 1 1000 C10w_booking 2 rfl
     (Or.inl rfl)).2,
   (C10_placeholder_schedule {} C10w_payload 1 1000 C10w_booking_bad 3 rfl
     (Or.inr rfl)).2⟩

end AureaVia
